import Mathlib

/-! Rook CSI operator-driver reconciliation: a shallow embedding.

Sources: `pkg/operator/ceph/csi/operator_driver.go` and the tests of the file-system
controller, `pkg/operator/ceph/file/controller_test.go`.

Conventions of the embedding.

* A Go pointer that may be nil is an `Option`; a Go map that may be nil is an
  `Option` of an association list (`none` is the nil map).
* A Go `error` result is `Option GoError`; `none` is the nil error.
* The remote object store is a collaborator.  It is a record of functions over
  an abstract cluster state `σ`; every call the code issues on its clients is also
  recorded, in order, in a call log.
* Types of external libraries (`metav1.ObjectMeta`, `corev1.ResourceRequirements`,
  `csiopv1.DriverSpec`, ...) carry the fields this file's source reads or writes
  plus the server-assigned metadata the statements speak about.
* Functions, variables and constants of the package that the source uses and does
  not declare (`getComputeResource`, `CSIParam`, `opConfigCRName`, ...) are parameters.
* Strings are sequences of Unicode characters (Go strings that are valid UTF-8).
* The reconcile logic of the file-system controller is not in the source; it is
  modelled from the specification, in definitions marked as such.
-/

namespace Rook

/-! ## Go maps and errors -/

/-- Go `map[string]string` contents as an association list with unique keys kept by `mapSet`. -/
abbrev StringMap := List (String × String)

/-- Go `v, ok := m[k]`: `some v` when the key is present. -/
def mapGet : StringMap → String → Option String
  | [], _ => none
  | (k', v) :: rest, k => if k' = k then some v else mapGet rest k

/-- Go `m[k] = v`: replaces the value of a present key, adds an absent one. -/
def mapSet : StringMap → String → String → StringMap
  | [], k, v => [(k, v)]
  | (k', v') :: rest, k, v => if k' = k then (k, v) :: rest else (k', v') :: mapSet rest k v

/-- Go error values.  `status` is an error produced by a collaborator (its flag is
what `apierrors.IsNotFound` reports for it); `wrapf` is `errors.Wrapf(cause, format, args...)`,
kept structured: the format string and the arguments it is rendered with. -/
inductive GoError where
  | status (notFound : Bool) (message : String)
  | wrapf (cause : GoError) (format : String) (args : List String)
deriving DecidableEq, Repr

/-- Model of `apierrors.IsNotFound`: looks through wrappers (`errors.As`). -/
def IsNotFound : GoError → Bool
  | .status nf _ => nf
  | .wrapf cause _ _ => IsNotFound cause

/-! ## Kubernetes object model -/

/-- Model of `types.NamespacedName`. -/
structure NamespacedName where
  Namespace : String
  Name : String
deriving DecidableEq, Repr

/-- Model of `metav1.ObjectMeta`: identity and server-assigned metadata. -/
structure ObjectMeta where
  Name : String
  Namespace : String
  UID : String
  ResourceVersion : String
  Generation : Int
  Labels : Option StringMap
  Annotations : Option StringMap
  OwnerReferences : List String
  Finalizers : List String
deriving DecidableEq, Repr

/-- Model of `corev1.ResourceList`, a map from resource name to quantity. -/
abbrev ResourceList := List (String × String)

/-- Model of `corev1.ResourceRequirements`; `none` is a nil map or nil slice. -/
structure ResourceRequirements where
  Limits : Option ResourceList
  Requests : Option ResourceList
  Claims : Option (List String)
deriving DecidableEq, Repr

/-- Model of `k8sutil.ContainerResource`: one row of an allocation table. -/
structure ContainerResource where
  Name : String
  Resource : ResourceRequirements
deriving DecidableEq, Repr

/-- Model of `csiopv1.ControllerPluginResourcesSpec`. -/
structure ControllerPluginResourcesSpec where
  Attacher : Option ResourceRequirements
  Snapshotter : Option ResourceRequirements
  Resizer : Option ResourceRequirements
  Provisioner : Option ResourceRequirements
  OMapGenerator : Option ResourceRequirements
  Liveness : Option ResourceRequirements
  Addons : Option ResourceRequirements
  LogRotator : Option ResourceRequirements
  Plugin : Option ResourceRequirements
deriving DecidableEq, Repr

/-- Model of `csiopv1.NodePluginResourcesSpec`. -/
structure NodePluginResourcesSpec where
  Registrar : Option ResourceRequirements
  Liveness : Option ResourceRequirements
  Addons : Option ResourceRequirements
  LogRotator : Option ResourceRequirements
  Plugin : Option ResourceRequirements
deriving DecidableEq, Repr

/-- Model of `csiopv1.PodCommonSpec`; affinity and tolerations are uninterpreted payloads. -/
structure PodCommonSpec where
  PrioritylClassName : Option String
  Affinity : Option String
  Tolerations : List String
deriving DecidableEq, Repr

/-- Model of `v1.DaemonSetUpdateStrategyType`. -/
inductive DaemonSetUpdateStrategyType where
  | RollingUpdate
  | OnDelete
deriving DecidableEq, Repr

/-- Model of `v1.DaemonSetUpdateStrategy`; `Type_` is the Go field `Type`. -/
structure DaemonSetUpdateStrategy where
  Type_ : DaemonSetUpdateStrategyType
deriving DecidableEq, Repr

/-- Model of `csiopv1.TopologySpec`. -/
structure TopologySpec where
  DomainLabels : List String
deriving DecidableEq, Repr

/-- Model of `csiopv1.NodePluginSpec`. -/
structure NodePluginSpec where
  PodCommonSpec : PodCommonSpec
  Resources : NodePluginResourcesSpec
  KubeletDirPath : String
  EnableSeLinuxHostMount : Option Bool
  UpdateStrategy : Option DaemonSetUpdateStrategy
  Topology : Option TopologySpec
deriving DecidableEq, Repr

/-- Model of `csiopv1.ControllerPluginSpec`. -/
structure ControllerPluginSpec where
  PodCommonSpec : PodCommonSpec
  Replicas : Option Int
  Resources : ControllerPluginResourcesSpec
deriving DecidableEq, Repr

/-- Model of `csiopv1.CephFsClientType`. -/
inductive CephFsClientType where
  | unset
  | KernelCephFsClient
  | AutoDetectCephFsClient
deriving DecidableEq, Repr

/-- Model of `csiopv1.SnapshotPolicyType`. -/
inductive SnapshotPolicyType where
  | unset
  | NoneSnapshotPolicy
  | VolumeGroupSnapshotPolicy
deriving DecidableEq, Repr

/-- Model of `csiopv1.DriverSpec`, the desired-state document of a driver. -/
structure DriverSpec where
  Log : Option Int
  ImageSet : Option String
  ClusterName : Option String
  EnableMetadata : Option Bool
  GenerateOMapInfo : Option Bool
  FsGroupPolicy : String
  NodePlugin : Option NodePluginSpec
  ControllerPlugin : Option ControllerPluginSpec
  DeployCsiAddons : Option Bool
  CephFsClientType : CephFsClientType
  Liveness : Option Int
  SnapshotPolicy : SnapshotPolicyType
deriving DecidableEq, Repr

/-- Model of `csiopv1.Driver`. -/
structure Driver where
  ObjectMeta : ObjectMeta
  Spec : DriverSpec
  Status : String
deriving DecidableEq, Repr

/-- Model of `k8scsiv1.CSIDriver` (cluster scoped); its spec is an uninterpreted payload. -/
structure CSIDriver where
  ObjectMeta : ObjectMeta
  Spec : String
deriving DecidableEq, Repr

/-! ## Collaborators -/

/-- Model of the controller-runtime client used for `Driver` objects.  `Get` either
fails (leaving the caller's object untouched) or yields the stored object, which
overwrites the caller's object; `Create` and `Update` return the next cluster
state and an error result. -/
structure Client (σ : Type) where
  Get : σ → NamespacedName → Except GoError Driver
  Create : σ → Driver → σ × Option GoError
  Update : σ → Driver → σ × Option GoError

/-- Model of `Clientset.StorageV1().CSIDrivers()`.  `Get` returns a pointer (possibly
nil) together with an error result, as the Go signature allows. -/
structure CSIDriverInterface (σ : Type) where
  Get : σ → String → Option CSIDriver × Option GoError
  Update : σ → CSIDriver → σ × Option GoError

/-- One call issued to a collaborator. -/
inductive Call where
  | GetDriver (key : NamespacedName)
  | CreateDriver (obj : Driver)
  | UpdateDriver (obj : Driver)
  | GetCSIDriver (name : String)
  | UpdateCSIDriver (obj : CSIDriver)
deriving DecidableEq, Repr

/-- What a call of one of the reconciler's methods leaves behind: the cluster
state, the calls it issued in order, and the error it returned. -/
structure Outcome (σ : Type) where
  store : σ
  calls : List Call
  err : Option GoError

/-- Model of the receiver `ReconcileCSI`: the collaborators and `opConfig.OperatorNamespace`. -/
structure ReconcileCSI (σ : Type) where
  client : Client σ
  CSIDrivers : CSIDriverInterface σ
  OperatorNamespace : String

/-! ## `createOrUpdateDriverResource` -/

/-- Embedding of `createOrUpdateDriverResource`.  `opConfigCRName` is a package
constant declared outside this file's source. -/
def createOrUpdateDriverResource {σ : Type} (r : ReconcileCSI σ) (opConfigCRName : String)
    (s : σ) (driverResource : Driver) : Outcome σ :=
  let spec := driverResource.Spec
  let key : NamespacedName :=
    { Name := driverResource.ObjectMeta.Name, Namespace := r.OperatorNamespace }
  match r.client.Get s key with
  | .error err =>
    if IsNotFound err then
      match r.client.Create s driverResource with
      | (s', some err) =>
        { store := s', calls := [.GetDriver key, .CreateDriver driverResource],
          err := some (.wrapf err "failed to create CSI-operator driver CR %q"
            [driverResource.ObjectMeta.Name]) }
      | (s', none) =>
        { store := s', calls := [.GetDriver key, .CreateDriver driverResource], err := none }
    else
      { store := s, calls := [.GetDriver key],
        err := some (.wrapf err "failed to get CSI-operator  driver CR %q" [opConfigCRName]) }
  | .ok fetched =>
    let driverResource : Driver := { fetched with Spec := spec }
    match r.client.Update s driverResource with
    | (s', some err) =>
      { store := s', calls := [.GetDriver key, .UpdateDriver driverResource],
        err := some (.wrapf err "failed to update CSI-operator driver CR %q"
          [driverResource.ObjectMeta.Name]) }
    | (s', none) =>
      { store := s', calls := [.GetDriver key, .UpdateDriver driverResource], err := none }

/-! ## `transferCSIDriverOwner` -/

/-- How a call ends: it returns to its caller, or it panics on a nil pointer dereference. -/
inductive Completion (σ : Type) where
  | returned (out : Outcome σ)
  | panicked (store : σ) (calls : List Call)

/-- Model of `client.ObjectKeyFromObject`. -/
def ObjectKeyFromObject (obj : CSIDriver) : NamespacedName :=
  { Namespace := obj.ObjectMeta.Namespace, Name := obj.ObjectMeta.Name }

/-- The annotation key under which the ownership record is stored. -/
def ownerRefKey : String := "csi.ceph.io/ownerref"

/-- Embedding of `transferCSIDriverOwner`.  `jsonMarshal` stands for `json.Marshal`
at type `types.NamespacedName`, an external pure function with an error result.
After a fetch error that is not not-found the source falls through and goes on
with whatever pointer `Get` returned. -/
def transferCSIDriverOwner {σ : Type} (r : ReconcileCSI σ)
    (jsonMarshal : NamespacedName → Except GoError String) (s : σ) (name : String) :
    Completion σ :=
  match r.CSIDrivers.Get s name with
  | (csiDriver, err) =>
    let isNotFound : Bool :=
      match err with
      | some e => IsNotFound e
      | none => false
    if isNotFound then
      .returned { store := s, calls := [.GetCSIDriver name], err := none }
    else
      let key := ownerRefKey
      match csiDriver with
      | none => .panicked s [.GetCSIDriver name]
      | some csiDriver =>
        let ownerObjKey := ObjectKeyFromObject csiDriver
        let ownerObjKey : NamespacedName := { ownerObjKey with Namespace := r.OperatorNamespace }
        match jsonMarshal ownerObjKey with
        | .error err =>
          .returned { store := s, calls := [.GetCSIDriver name],
                      err := some (.wrapf err "failed to marshal owner object key %q"
                        [ownerObjKey.Name]) }
        | .ok val =>
          let annotations : StringMap :=
            match csiDriver.ObjectMeta.Annotations with
            | none => []
            | some m => m
          let (oldValue, exist) : String × Bool :=
            match mapGet annotations key with
            | some v => (v, true)
            | none => ("", false)
          if !exist || oldValue != val then
            let annotations := mapSet annotations key val
            let csiDriver : CSIDriver :=
              { csiDriver with
                ObjectMeta := { csiDriver.ObjectMeta with Annotations := some annotations } }
            match r.CSIDrivers.Update s csiDriver with
            | (s', some err) =>
              .returned { store := s', calls := [.GetCSIDriver name, .UpdateCSIDriver csiDriver],
                          err := some (.wrapf err "failed to update CSIDriver %s" [name]) }
            | (s', none) =>
              .returned { store := s', calls := [.GetCSIDriver name, .UpdateCSIDriver csiDriver],
                          err := none }
          else
            .returned { store := s, calls := [.GetCSIDriver name], err := none }

/-! ## A model of `json.Marshal` on `types.NamespacedName` -/

/-- Four hexadecimal digits of a code point below `0x10000`. -/
def hex4 (n : Nat) : String :=
  let ds := Nat.toDigits 16 n
  String.mk (List.replicate (4 - ds.length) '0' ++ ds)

/-- Escaping of one character inside a JSON string, as `encoding/json` does with
HTML escaping on. -/
def jsonEscapeChar (c : Char) : String :=
  if c = '"' then "\\\""
  else if c = '\\' then "\\\\"
  else if c = '\n' then "\\n"
  else if c = '\r' then "\\r"
  else if c = '\t' then "\\t"
  else if c.toNat = 8 then "\\b"
  else if c.toNat = 12 then "\\f"
  else if c.toNat < 32 ∨ c = '<' ∨ c = '>' ∨ c = '&' ∨ c.toNat = 0x2028 ∨ c.toNat = 0x2029 then
    "\\u" ++ hex4 c.toNat
  else String.singleton c

/-- A JSON string literal. -/
def jsonString (s : String) : String :=
  "\"" ++ String.join (s.data.map jsonEscapeChar) ++ "\""

/-- Model of `json.Marshal(types.NamespacedName)`: the struct has no field tags, so
the fields are written in declaration order under their Go names; it never fails. -/
def jsonMarshalNamespacedName (k : NamespacedName) : Except GoError String :=
  .ok ("\x7b\"Namespace\":" ++ jsonString k.Namespace ++ ",\"Name\":" ++ jsonString k.Name ++ "\x7d")

/-! ## Allocation tables -/

namespace strings

/-- Whether the second list is a prefix of the first. -/
def hasPrefixChars : List Char → List Char → Bool
  | _, [] => true
  | [], _ :: _ => false
  | c :: s, p :: ps => c == p && hasPrefixChars s ps

/-- Whether the second list occurs as a contiguous block of the first. -/
def containsChars : List Char → List Char → Bool
  | [], sub => sub.isEmpty
  | c :: s, sub => hasPrefixChars (c :: s) sub || containsChars s sub

/-- Model of Go `strings.Contains(s, substr)`. -/
def Contains (s substr : String) : Bool :=
  containsChars s.data substr.data

end strings

/-- The zero value `corev1.ResourceRequirements{}`. -/
def emptyResourceRequirements : ResourceRequirements :=
  { Limits := none, Requests := none, Claims := none }

/-- The zero value `csiopv1.ControllerPluginResourcesSpec{}`. -/
def emptyControllerPluginResources : ControllerPluginResourcesSpec :=
  { Attacher := none, Snapshotter := none, Resizer := none, Provisioner := none,
    OMapGenerator := none, Liveness := none, Addons := none, LogRotator := none,
    Plugin := none }

/-- The literal `&corev1.ResourceRequirements{Limits: ..., Requests: ...}` built for a row. -/
def limitsAndRequests (r : ContainerResource) : ResourceRequirements :=
  { Limits := r.Resource.Limits, Requests := r.Resource.Requests, Claims := none }

/-- Body of the `for` loop of `createDriverControllerPluginResources`: the guard
`!reflect.DeepEqual(r.Resource, corev1.ResourceRequirements{})` and the `switch`. -/
def controllerPluginLoopBody (controllerPluginResources : ControllerPluginResourcesSpec)
    (r : ContainerResource) : ControllerPluginResourcesSpec :=
  if r.Resource ≠ emptyResourceRequirements then
    if strings.Contains r.Name "provisioner" then
      { controllerPluginResources with Provisioner := some (limitsAndRequests r) }
    else if strings.Contains r.Name "resizer" then
      { controllerPluginResources with Resizer := some (limitsAndRequests r) }
    else if strings.Contains r.Name "snapshotter" then
      { controllerPluginResources with Snapshotter := some (limitsAndRequests r) }
    else if strings.Contains r.Name "attacher" then
      { controllerPluginResources with Attacher := some (limitsAndRequests r) }
    else if strings.Contains r.Name "plugin" then
      { controllerPluginResources with Plugin := some (limitsAndRequests r) }
    else if strings.Contains r.Name "omap-generator" then
      { controllerPluginResources with OMapGenerator := some (limitsAndRequests r) }
    else if strings.Contains r.Name "liveness" then
      { controllerPluginResources with Liveness := some (limitsAndRequests r) }
    else if strings.Contains r.Name "addons" then
      { controllerPluginResources with Addons := some (limitsAndRequests r) }
    else controllerPluginResources
  else controllerPluginResources

/-- Embedding of `createDriverControllerPluginResources`.  `getComputeResource` is
declared outside this file's source: it maps a configuration key to its rows. -/
def createDriverControllerPluginResources
    (getComputeResource : String → List ContainerResource) (key : String) :
    ControllerPluginResourcesSpec :=
  let controllerPluginResources := emptyControllerPluginResources
  let resource := getComputeResource key
  resource.foldl controllerPluginLoopBody controllerPluginResources

/-! ## The dispatch of allocation rows, as the specification words it -/

/-- The fields of the controller-plugin resource set. -/
inductive ControllerField where
  | Attacher
  | Snapshotter
  | Resizer
  | Provisioner
  | OMapGenerator
  | Liveness
  | Addons
  | LogRotator
  | Plugin
deriving DecidableEq, Repr

/-- Reading one field of the controller-plugin resource set. -/
def ControllerField.get : ControllerField → ControllerPluginResourcesSpec →
    Option ResourceRequirements
  | .Attacher, c => c.Attacher
  | .Snapshotter, c => c.Snapshotter
  | .Resizer, c => c.Resizer
  | .Provisioner, c => c.Provisioner
  | .OMapGenerator, c => c.OMapGenerator
  | .Liveness, c => c.Liveness
  | .Addons, c => c.Addons
  | .LogRotator, c => c.LogRotator
  | .Plugin, c => c.Plugin

/-- Setting one field of the controller-plugin resource set. -/
def ControllerField.set : ControllerField → ControllerPluginResourcesSpec →
    ResourceRequirements → ControllerPluginResourcesSpec
  | .Attacher, c, v => { c with Attacher := some v }
  | .Snapshotter, c, v => { c with Snapshotter := some v }
  | .Resizer, c, v => { c with Resizer := some v }
  | .Provisioner, c, v => { c with Provisioner := some v }
  | .OMapGenerator, c, v => { c with OMapGenerator := some v }
  | .Liveness, c, v => { c with Liveness := some v }
  | .Addons, c, v => { c with Addons := some v }
  | .LogRotator, c, v => { c with LogRotator := some v }
  | .Plugin, c, v => { c with Plugin := some v }

/-- The ordered dispatch list of the specification for the controller plugin:
substring and the field that belongs to it, highest priority first. -/
def controllerPriority : List (String × ControllerField) :=
  [("provisioner", .Provisioner), ("resizer", .Resizer), ("snapshotter", .Snapshotter),
   ("attacher", .Attacher), ("plugin", .Plugin), ("omap-generator", .OMapGenerator),
   ("liveness", .Liveness), ("addons", .Addons)]

/-- The field of the first substring, in list order, that the name contains. -/
def firstMatch {φ : Type} (table : List (String × φ)) (name : String) : Option φ :=
  (table.find? (fun p => strings.Contains name p.1)).map (fun p => p.2)

/-- One row of the reference fold: a row with empty requirements or without a
matching substring is dropped, any other row sets the field of its first match. -/
def referenceControllerRow (acc : ControllerPluginResourcesSpec) (r : ContainerResource) :
    ControllerPluginResourcesSpec :=
  if r.Resource = emptyResourceRequirements then acc
  else
    match firstMatch controllerPriority r.Name with
    | none => acc
    | some f => f.set acc (limitsAndRequests r)

/-- The reference fold of the specification: rows in order, from the empty resource set. -/
def referenceControllerFold (rows : List ContainerResource) : ControllerPluginResourcesSpec :=
  rows.foldl referenceControllerRow emptyControllerPluginResources

/-! ## An in-memory object store

A store that persists the objects it is given, used to instantiate the
collaborators. -/

/-- The identity of a `Driver`. -/
def driverKey (d : Driver) : NamespacedName :=
  { Namespace := d.ObjectMeta.Namespace, Name := d.ObjectMeta.Name }

/-- The stored objects of an in-memory cluster. -/
structure Cluster where
  drivers : List Driver
  csiDrivers : List CSIDriver
deriving DecidableEq, Repr

/-- The error an in-memory store answers for an absent object. -/
def notFoundError : GoError := .status true "not found"

/-- The error an in-memory store answers for a create of a present object. -/
def alreadyExistsError : GoError := .status false "already exists"

/-- Replace the stored object that has the identity of `obj` by `obj`. -/
def replaceDriver (obj : Driver) : List Driver → List Driver
  | [] => []
  | d :: ds => if driverKey d = driverKey obj then obj :: ds else d :: replaceDriver obj ds

/-- Replace the stored object that has the name of `obj` by `obj`. -/
def replaceCSIDriver (obj : CSIDriver) : List CSIDriver → List CSIDriver
  | [] => []
  | d :: ds =>
    if d.ObjectMeta.Name = obj.ObjectMeta.Name then obj :: ds else d :: replaceCSIDriver obj ds

/-- The in-memory client for `Driver` objects. -/
def memClient : Client Cluster where
  Get s key :=
    match s.drivers.find? (fun d => decide (driverKey d = key)) with
    | some d => .ok d
    | none => .error notFoundError
  Create s obj :=
    match s.drivers.find? (fun d => decide (driverKey d = driverKey obj)) with
    | some _ => (s, some alreadyExistsError)
    | none => ({ s with drivers := s.drivers ++ [obj] }, none)
  Update s obj :=
    match s.drivers.find? (fun d => decide (driverKey d = driverKey obj)) with
    | some _ => ({ s with drivers := replaceDriver obj s.drivers }, none)
    | none => (s, some notFoundError)

/-- The in-memory client for `CSIDriver` objects. -/
def memCSIDrivers : CSIDriverInterface Cluster where
  Get s name :=
    match s.csiDrivers.find? (fun d => decide (d.ObjectMeta.Name = name)) with
    | some d => (some d, none)
    | none => (none, some notFoundError)
  Update s obj :=
    match s.csiDrivers.find? (fun d => decide (d.ObjectMeta.Name = obj.ObjectMeta.Name)) with
    | some _ => ({ s with csiDrivers := replaceCSIDriver obj s.csiDrivers }, none)
    | none => (s, some notFoundError)

/-- The reconciler over the in-memory cluster. -/
def memReconciler (operatorNamespace : String) : ReconcileCSI Cluster :=
  { client := memClient, CSIDrivers := memCSIDrivers, OperatorNamespace := operatorNamespace }

/-- A store whose `Get`, `Create` and `Update` succeed and which keeps the identity
and the spec of what it is given: `Get` fails only with not-found, a fetched object
has the identity asked for, `Create` succeeds on an absent identity and `Update` on
a present one, and after a successful write `Get` yields an object with the spec
written.  The store is free to assign other metadata (a resource version) on write. -/
structure SucceedingStore {σ : Type} (c : Client σ) : Prop where
  get_absent : ∀ s k e, c.Get s k = .error e → IsNotFound e = true
  get_key : ∀ s k o, c.Get s k = .ok o → driverKey o = k
  create_ok : ∀ s o e, c.Get s (driverKey o) = .error e → (c.Create s o).2 = none
  update_ok : ∀ s o o', c.Get s (driverKey o) = .ok o' → (c.Update s o).2 = none
  get_create : ∀ s o, (c.Create s o).2 = none →
    ∃ o', c.Get (c.Create s o).1 (driverKey o) = .ok o' ∧ o'.Spec = o.Spec
  get_update : ∀ s o, (c.Update s o).2 = none →
    ∃ o', c.Get (c.Update s o).1 (driverKey o) = .ok o' ∧ o'.Spec = o.Spec

/-- What a server does to the resource version of an object on every write. -/
def stampResourceVersion (o : Driver) : Driver :=
  { o with
    ObjectMeta := { o.ObjectMeta with ResourceVersion := o.ObjectMeta.ResourceVersion ++ "+1" } }

/-- The in-memory client of a server that assigns a new resource version on every
`Create` and `Update`, as an API server and the fake client of the tests do. -/
def stampingClient : Client Cluster where
  Get := memClient.Get
  Create s obj := memClient.Create s (stampResourceVersion obj)
  Update s obj := memClient.Update s (stampResourceVersion obj)

/-- The reconciler over the in-memory cluster of a server that stamps resource versions. -/
def stampingReconciler (operatorNamespace : String) : ReconcileCSI Cluster :=
  { client := stampingClient, CSIDrivers := memCSIDrivers,
    OperatorNamespace := operatorNamespace }

/-! ## Sample objects -/

/-- An object metadata value with only name and namespace set. -/
def metaOf (name ns : String) : ObjectMeta :=
  { Name := name, Namespace := ns, UID := "", ResourceVersion := "", Generation := 0,
    Labels := none, Annotations := none, OwnerReferences := [], Finalizers := [] }

/-- The zero value `csiopv1.DriverSpec{}`. -/
def emptyDriverSpec : DriverSpec :=
  { Log := none, ImageSet := none, ClusterName := none, EnableMetadata := none,
    GenerateOMapInfo := none, FsGroupPolicy := "", NodePlugin := none,
    ControllerPlugin := none, DeployCsiAddons := none, CephFsClientType := .unset,
    Liveness := none, SnapshotPolicy := .unset }

/-- A desired spec that differs from the zero value. -/
def sampleSpec : DriverSpec :=
  { emptyDriverSpec with Log := some 5, ClusterName := some "my-cluster",
                         FsGroupPolicy := "File" }

/-- The object a caller passes: name, operator namespace and desired spec only. -/
def sampleDesired : Driver :=
  { ObjectMeta := metaOf "rook-ceph.rbd.csi.ceph.com" "rook-ceph", Spec := sampleSpec,
    Status := "" }

/-- A stored driver with server-assigned metadata and an older spec. -/
def sampleStored : Driver :=
  { ObjectMeta :=
      { Name := "rook-ceph.rbd.csi.ceph.com", Namespace := "rook-ceph", UID := "uid-1",
        ResourceVersion := "42", Generation := 3, Labels := some [("app", "csi")],
        Annotations := some [("note", "kept")], OwnerReferences := ["owner-a"],
        Finalizers := ["fin-a"] },
    Spec := emptyDriverSpec, Status := "Ready" }

/-- A stored `CSIDriver` without the ownership annotation. -/
def sampleCSIDriver : CSIDriver :=
  { ObjectMeta :=
      { Name := "rook-ceph.rbd.csi.ceph.com", Namespace := "", UID := "uid-9",
        ResourceVersion := "7", Generation := 1, Labels := none,
        Annotations := some [("note", "kept")], OwnerReferences := [], Finalizers := [] },
    Spec := "attachRequired" }

/-! ## Vocabulary of the statements -/

/-- The annotations of a `CSIDriver` read as a map, the nil map being empty. -/
def annotationsOf (d : CSIDriver) : StringMap :=
  match d.ObjectMeta.Annotations with
  | none => []
  | some m => m

/-- The given `CSIDriver` with the ownership annotation set to `val`; every other
annotation and every other field is the given object's. -/
def withOwnerRef (d : CSIDriver) (val : String) : CSIDriver :=
  { d with
    ObjectMeta :=
      { d.ObjectMeta with Annotations := some (mapSet (annotationsOf d) ownerRefKey val) } }

/-- Whether a call writes to the store (`Create` or `Update`). -/
def Call.isWrite : Call → Bool
  | .CreateDriver _ => true
  | .UpdateDriver _ => true
  | .UpdateCSIDriver _ => true
  | .GetDriver _ => false
  | .GetCSIDriver _ => false

/-- The number of writes in a call log. -/
def countWrites (calls : List Call) : Nat :=
  (calls.filter Call.isWrite).length

/-- A `CSIDriver` client whose `Get` answers with the stored object together with an
error that is not not-found (as a fake clientset with an error reactor can), and
with a nil pointer and that error when nothing is stored; `Update` is the
in-memory one. -/
def failingGetCSIDrivers : CSIDriverInterface Cluster where
  Get s name :=
    (s.csiDrivers.find? (fun d => decide (d.ObjectMeta.Name = name)),
     some (.status false "etcdserver: request timed out"))
  Update := memCSIDrivers.Update

/-- A `Driver` client whose every call fails with the given errors. -/
def failingClient (getErr createErr updateErr : GoError) : Client Cluster where
  Get _ _ := .error getErr
  Create s _ := (s, some createErr)
  Update s _ := (s, some updateErr)

/-- The name of the sample `CSIDriver`. -/
def sampleName : String := "rook-ceph.rbd.csi.ceph.com"

/-- The serialized ownership key of the sample `CSIDriver` under operator namespace `rook-ceph`. -/
def sampleOwnerRef : String :=
  "\x7b\"Namespace\":\"rook-ceph\",\"Name\":\"rook-ceph.rbd.csi.ceph.com\"\x7d"

/-- The reconciler whose `CSIDriver` fetch fails with an error that is not not-found. -/
def failingGetReconciler : ReconcileCSI Cluster :=
  { client := memClient, CSIDrivers := failingGetCSIDrivers, OperatorNamespace := "rook-ceph" }

/-! ## Node-plugin allocation tables -/

/-- The zero value `csiopv1.NodePluginResourcesSpec{}`. -/
def emptyNodePluginResources : NodePluginResourcesSpec :=
  { Registrar := none, Liveness := none, Addons := none, LogRotator := none, Plugin := none }

/-- Body of the `for` loop of `createDriverNodePluginResouces`: the guard
`!reflect.DeepEqual(r.Resource, corev1.ResourceRequirements{})` and the `if` chain. -/
def nodePluginLoopBody (nodePluginResources : NodePluginResourcesSpec)
    (r : ContainerResource) : NodePluginResourcesSpec :=
  if r.Resource ≠ emptyResourceRequirements then
    if strings.Contains r.Name "registrar" then
      { nodePluginResources with Registrar := some (limitsAndRequests r) }
    else if strings.Contains r.Name "plugin" then
      { nodePluginResources with Plugin := some (limitsAndRequests r) }
    else if strings.Contains r.Name "liveness" then
      { nodePluginResources with Liveness := some (limitsAndRequests r) }
    else if strings.Contains r.Name "addons" then
      { nodePluginResources with Addons := some (limitsAndRequests r) }
    else nodePluginResources
  else nodePluginResources

/-- Embedding of `createDriverNodePluginResouces` (the source's spelling).
`getComputeResource` is declared outside this file's source. -/
def createDriverNodePluginResouces
    (getComputeResource : String → List ContainerResource) (key : String) :
    NodePluginResourcesSpec :=
  let nodePluginResources := emptyNodePluginResources
  let resource := getComputeResource key
  resource.foldl nodePluginLoopBody nodePluginResources

/-- The fields of the node-plugin resource set. -/
inductive NodeField where
  | Registrar
  | Liveness
  | Addons
  | LogRotator
  | Plugin
deriving DecidableEq, Repr

/-- Reading one field of the node-plugin resource set. -/
def NodeField.get : NodeField → NodePluginResourcesSpec → Option ResourceRequirements
  | .Registrar, c => c.Registrar
  | .Liveness, c => c.Liveness
  | .Addons, c => c.Addons
  | .LogRotator, c => c.LogRotator
  | .Plugin, c => c.Plugin

/-- Setting one field of the node-plugin resource set. -/
def NodeField.set : NodeField → NodePluginResourcesSpec → ResourceRequirements →
    NodePluginResourcesSpec
  | .Registrar, c, v => { c with Registrar := some v }
  | .Liveness, c, v => { c with Liveness := some v }
  | .Addons, c, v => { c with Addons := some v }
  | .LogRotator, c, v => { c with LogRotator := some v }
  | .Plugin, c, v => { c with Plugin := some v }

/-- The ordered dispatch list of the specification for the node plugin. -/
def nodePriority : List (String × NodeField) :=
  [("registrar", .Registrar), ("plugin", .Plugin), ("liveness", .Liveness),
   ("addons", .Addons)]

/-- One row of the node-plugin reference fold: a row with empty requirements or
without a matching substring is dropped, any other row sets the field of its first
match. -/
def referenceNodeRow (acc : NodePluginResourcesSpec) (r : ContainerResource) :
    NodePluginResourcesSpec :=
  if r.Resource = emptyResourceRequirements then acc
  else
    match firstMatch nodePriority r.Name with
    | none => acc
    | some f => f.set acc (limitsAndRequests r)

/-- The node-plugin reference fold: rows in order, from the empty resource set. -/
def referenceNodeFold (rows : List ContainerResource) : NodePluginResourcesSpec :=
  rows.foldl referenceNodeRow emptyNodePluginResources

/-- Resource requirements that are not the zero value. -/
def sampleRequirements : ResourceRequirements :=
  { Limits := some [("cpu", "500m")], Requests := some [("memory", "128Mi")], Claims := none }

/-! ## Building the desired driver specs -/

namespace strings

/-- Splitting at a non-empty separator, left to right without overlap: `skip` counts
the characters of a separator just matched that are still to be passed over, `cur`
holds the current piece in reverse. -/
def splitChars (sep : List Char) : List Char → Nat → List Char → List (List Char)
  | [], _, cur => [cur.reverse]
  | _ :: rest, skip + 1, cur => splitChars sep rest skip cur
  | c :: rest, 0, cur =>
    if hasPrefixChars (c :: rest) sep then cur.reverse :: splitChars sep rest (sep.length - 1) []
    else splitChars sep rest 0 (c :: cur)

/-- Model of Go `strings.Split(s, sep)`: with an empty separator the string is cut
into its characters, otherwise it is cut at every occurrence of the separator. -/
def Split (s sep : String) : List String :=
  if sep.data = [] then s.data.map String.singleton
  else (splitChars sep.data s.data 0 []).map String.mk

/-- Model of Go `strings.Join(elems, sep)`. -/
def Join : List String → String → String
  | [], _ => ""
  | [a], _ => a
  | a :: b :: rest, sep => a ++ sep ++ Join (b :: rest) sep

end strings

/-- Model of the package variable `CSIParam`, declared outside this file's source:
the configuration values the driver builders read. -/
structure Param where
  LogLevel : Nat
  CSIEnableMetadata : Bool
  EnableOMAPGenerator : Bool
  ProvisionerPriorityClassName : String
  PluginPriorityClassName : String
  KubeletDirPath : String
  EnablePluginSelinuxHostMount : Bool
  ProvisionerReplicas : Int
  EnableCSIAddonsSideCar : Bool
  ForceCephFSKernelClient : String
  RBDLivenessMetricsPort : Nat
  CephFSLivenessMetricsPort : Nat
  VolumeGroupSnapshotCLIFlag : String
  CSIDomainLabels : String
  RBDPluginUpdateStrategy : String
deriving DecidableEq, Repr

/-- What the driver builders use of the package besides `CSIParam`, all declared
outside this file's source: the collaborators `createImageSetConfigmap`,
`getNodeAffinity`, `getToleration`, `getComputeResource` and the string constants. -/
structure CSIPackage (σ : Type) where
  createImageSetConfigmap : σ → σ × Except GoError String
  getNodeAffinity : String → String
  getToleration : String → List String
  getComputeResource : String → List ContainerResource
  opConfigCRName : String
  pluginNodeAffinityEnv : String
  pluginTolerationsEnv : String
  provisionerNodeAffinityEnv : String
  provisionerTolerationsEnv : String
  rbdPluginResource : String
  rbdProvisionerResource : String
  cephFSPluginResource : String
  cephFSProvisionerResource : String
  nfsPluginResource : String
  nfsProvisionerResource : String

/-- Embedding of `generateDriverSpec`. -/
def generateDriverSpec {σ : Type} (pkg : CSIPackage σ) (CSIParam : Param) (s : σ)
    (clusterName : String) : σ × Except GoError DriverSpec :=
  let cephfsClientType : CephFsClientType :=
    if CSIParam.ForceCephFSKernelClient = "false" then .AutoDetectCephFsClient
    else .KernelCephFsClient
  match pkg.createImageSetConfigmap s with
  | (s', .error err) =>
    (s', .error (.wrapf err
      "failed to create ceph-CSI operator config ImageSetConfigmap for CR %s"
      [pkg.opConfigCRName]))
  | (s', .ok imageSetCmName) =>
    (s', .ok
      { Log := some (Int.ofNat CSIParam.LogLevel),
        ImageSet := some imageSetCmName,
        ClusterName := some clusterName,
        EnableMetadata := some CSIParam.CSIEnableMetadata,
        GenerateOMapInfo := some CSIParam.EnableOMAPGenerator,
        FsGroupPolicy := "File",
        NodePlugin := some
          { PodCommonSpec :=
              { PrioritylClassName := some CSIParam.ProvisionerPriorityClassName,
                Affinity := some (pkg.getNodeAffinity pkg.pluginNodeAffinityEnv),
                Tolerations := pkg.getToleration pkg.pluginTolerationsEnv },
            Resources := emptyNodePluginResources,
            KubeletDirPath := CSIParam.KubeletDirPath,
            EnableSeLinuxHostMount := some CSIParam.EnablePluginSelinuxHostMount,
            UpdateStrategy := none,
            Topology := none },
        ControllerPlugin := some
          { PodCommonSpec :=
              { PrioritylClassName := some CSIParam.PluginPriorityClassName,
                Affinity := some (pkg.getNodeAffinity pkg.provisionerNodeAffinityEnv),
                Tolerations := pkg.getToleration pkg.provisionerTolerationsEnv },
            Replicas := some CSIParam.ProvisionerReplicas,
            Resources := emptyControllerPluginResources },
        DeployCsiAddons := some CSIParam.EnableCSIAddonsSideCar,
        CephFsClientType := cephfsClientType,
        Liveness := none,
        SnapshotPolicy := .unset })

/-- The statements of a driver builder that write through `Spec.NodePlugin`: the
resources, the rolling-update default, the topology from `CSIParam.CSIDomainLabels`
and the strategy from `CSIParam.RBDPluginUpdateStrategy`, in source order. -/
def nodePluginAssignments {σ : Type} (pkg : CSIPackage σ) (CSIParam : Param)
    (provisionerResource : String) (nodePlugin : NodePluginSpec) : NodePluginSpec :=
  let nodePlugin : NodePluginSpec :=
    { nodePlugin with
      Resources := createDriverNodePluginResouces pkg.getComputeResource provisionerResource }
  let nodePlugin : NodePluginSpec :=
    { nodePlugin with UpdateStrategy := some { Type_ := .RollingUpdate } }
  let nodePlugin : NodePluginSpec :=
    if CSIParam.CSIDomainLabels ≠ "" then
      let domainLabels := strings.Split CSIParam.CSIDomainLabels ","
      { nodePlugin with Topology := some { DomainLabels := domainLabels } }
    else nodePlugin
  let nodePlugin : NodePluginSpec :=
    if CSIParam.RBDPluginUpdateStrategy = "OnDelete" then
      { nodePlugin with UpdateStrategy := some { Type_ := .OnDelete } }
    else nodePlugin
  nodePlugin

/-- The object `createOrUpdateRBDDriverResource` builds from the generated spec
before it calls `createOrUpdateDriverResource`; `none` when the spec holds a nil
`ControllerPlugin` or `NodePlugin` pointer, whose dereference panics. -/
def desiredRBDDriver {σ : Type} (pkg : CSIPackage σ) (CSIParam : Param)
    (OperatorNamespace : String) (spec : DriverSpec) : Option Driver :=
  let resourceName := OperatorNamespace ++ ".rbd.csi.ceph.com"
  match spec.ControllerPlugin, spec.NodePlugin with
  | some controllerPlugin, some nodePlugin =>
    let controllerPlugin : ControllerPluginSpec :=
      { controllerPlugin with
        Resources :=
          createDriverControllerPluginResources pkg.getComputeResource pkg.rbdPluginResource }
    let nodePlugin := nodePluginAssignments pkg CSIParam pkg.rbdProvisionerResource nodePlugin
    some
      { ObjectMeta := metaOf resourceName OperatorNamespace,
        Spec :=
          { spec with
            ControllerPlugin := some controllerPlugin,
            Liveness := some (Int.ofNat CSIParam.RBDLivenessMetricsPort),
            NodePlugin := some nodePlugin },
        Status := "" }
  | _, _ => none

/-- The object `createOrUpdateCephFSDriverResource` builds from the generated spec. -/
def desiredCephFSDriver {σ : Type} (pkg : CSIPackage σ) (CSIParam : Param)
    (OperatorNamespace : String) (spec : DriverSpec) : Option Driver :=
  let resourceName := OperatorNamespace ++ ".cephfs.csi.ceph.com"
  let snapshotPolicy : SnapshotPolicyType :=
    if CSIParam.VolumeGroupSnapshotCLIFlag ≠ "" then .VolumeGroupSnapshotPolicy
    else .NoneSnapshotPolicy
  match spec.ControllerPlugin, spec.NodePlugin with
  | some controllerPlugin, some nodePlugin =>
    let controllerPlugin : ControllerPluginSpec :=
      { controllerPlugin with
        Resources :=
          createDriverControllerPluginResources pkg.getComputeResource
            pkg.cephFSPluginResource }
    let nodePlugin :=
      nodePluginAssignments pkg CSIParam pkg.cephFSProvisionerResource nodePlugin
    some
      { ObjectMeta := metaOf resourceName OperatorNamespace,
        Spec :=
          { spec with
            SnapshotPolicy := snapshotPolicy,
            ControllerPlugin := some controllerPlugin,
            Liveness := some (Int.ofNat CSIParam.CephFSLivenessMetricsPort),
            NodePlugin := some nodePlugin },
        Status := "" }
  | _, _ => none

/-- The object `createOrUpdateNFSDriverResource` builds from the generated spec. -/
def desiredNFSDriver {σ : Type} (pkg : CSIPackage σ) (CSIParam : Param)
    (OperatorNamespace : String) (spec : DriverSpec) : Option Driver :=
  let resourceName := OperatorNamespace ++ ".nfs.csi.ceph.com"
  match spec.ControllerPlugin, spec.NodePlugin with
  | some controllerPlugin, some nodePlugin =>
    let controllerPlugin : ControllerPluginSpec :=
      { controllerPlugin with
        Resources :=
          createDriverControllerPluginResources pkg.getComputeResource pkg.nfsPluginResource }
    let nodePlugin := nodePluginAssignments pkg CSIParam pkg.nfsProvisionerResource nodePlugin
    some
      { ObjectMeta := metaOf resourceName OperatorNamespace,
        Spec :=
          { spec with
            ControllerPlugin := some controllerPlugin,
            NodePlugin := some nodePlugin },
        Status := "" }
  | _, _ => none

/-- The name of the driver object after `createOrUpdateDriverResource` ran on it: the
fetched object's name when `Get` overwrote it, the built name otherwise. -/
def nameAfterUpsert {σ : Type} (r : ReconcileCSI σ) (s : σ) (driver : Driver) : String :=
  match r.client.Get s { Namespace := r.OperatorNamespace, Name := driver.ObjectMeta.Name } with
  | .ok fetched => fetched.ObjectMeta.Name
  | .error _ => driver.ObjectMeta.Name

/-- The statements the three `createOrUpdate...DriverResource` methods share around
the building of their object: generate the spec (returning its error as is), build
the desired object with `desired`, upsert it, and wrap a failure of the upsert with
`format` and the object's name. -/
def createOrUpdateVariantDriverResource {σ : Type} (r : ReconcileCSI σ) (pkg : CSIPackage σ)
    (CSIParam : Param) (desired : String → DriverSpec → Option Driver) (format : String)
    (s : σ) (clusterName : String) : Completion σ :=
  match generateDriverSpec pkg CSIParam s clusterName with
  | (s1, .error err) => .returned { store := s1, calls := [], err := some err }
  | (s1, .ok spec) =>
    match desired r.OperatorNamespace spec with
    | none => .panicked s1 []
    | some driver =>
      let out := createOrUpdateDriverResource r pkg.opConfigCRName s1 driver
      match out.err with
      | some err =>
        .returned { out with err := some (.wrapf err format [nameAfterUpsert r s1 driver]) }
      | none => .returned out

/-- Embedding of `createOrUpdateRBDDriverResource`. -/
def createOrUpdateRBDDriverResource {σ : Type} (r : ReconcileCSI σ) (pkg : CSIPackage σ)
    (CSIParam : Param) (s : σ) (clusterName : String) : Completion σ :=
  createOrUpdateVariantDriverResource r pkg CSIParam (desiredRBDDriver pkg CSIParam)
    "failed to create or update RBD driver resource %q" s clusterName

/-- Embedding of `createOrUpdateCephFSDriverResource`. -/
def createOrUpdateCephFSDriverResource {σ : Type} (r : ReconcileCSI σ) (pkg : CSIPackage σ)
    (CSIParam : Param) (s : σ) (clusterName : String) : Completion σ :=
  createOrUpdateVariantDriverResource r pkg CSIParam (desiredCephFSDriver pkg CSIParam)
    "failed to create or update cephFS driver resource %q" s clusterName

/-- Embedding of `createOrUpdateNFSDriverResource`. -/
def createOrUpdateNFSDriverResource {σ : Type} (r : ReconcileCSI σ) (pkg : CSIPackage σ)
    (CSIParam : Param) (s : σ) (clusterName : String) : Completion σ :=
  createOrUpdateVariantDriverResource r pkg CSIParam (desiredNFSDriver pkg CSIParam)
    "failed to create or update NFS driver resource %q" s clusterName

/-- The three driver variants. -/
inductive DriverVariant where
  | RBD
  | CephFS
  | NFS
deriving DecidableEq, Repr

/-- The object a variant's method builds from the generated spec. -/
def desiredDriver {σ : Type} (pkg : CSIPackage σ) (CSIParam : Param)
    (OperatorNamespace : String) (spec : DriverSpec) : DriverVariant → Option Driver
  | .RBD => desiredRBDDriver pkg CSIParam OperatorNamespace spec
  | .CephFS => desiredCephFSDriver pkg CSIParam OperatorNamespace spec
  | .NFS => desiredNFSDriver pkg CSIParam OperatorNamespace spec

/-- The method of a variant. -/
def createOrUpdateVariant {σ : Type} (r : ReconcileCSI σ) (pkg : CSIPackage σ)
    (CSIParam : Param) (s : σ) (clusterName : String) : DriverVariant → Completion σ
  | .RBD => createOrUpdateRBDDriverResource r pkg CSIParam s clusterName
  | .CephFS => createOrUpdateCephFSDriverResource r pkg CSIParam s clusterName
  | .NFS => createOrUpdateNFSDriverResource r pkg CSIParam s clusterName

/-- The number of commas of a string. -/
def countCommas (s : String) : Nat :=
  s.data.count ','

/-- A package instance over the in-memory cluster: the image-set config map is
always made, no placement is configured and the allocation tables are empty. -/
def samplePackage : CSIPackage Cluster :=
  { createImageSetConfigmap := fun s => (s, .ok "rook-csi-operator-image-set-configmap"),
    getNodeAffinity := fun _ => "",
    getToleration := fun _ => [],
    getComputeResource := fun _ => [],
    opConfigCRName := "ceph-csi-operator-config",
    pluginNodeAffinityEnv := "CSI_PLUGIN_NODE_AFFINITY",
    pluginTolerationsEnv := "CSI_PLUGIN_TOLERATIONS",
    provisionerNodeAffinityEnv := "CSI_PROVISIONER_NODE_AFFINITY",
    provisionerTolerationsEnv := "CSI_PROVISIONER_TOLERATIONS",
    rbdPluginResource := "CSI_RBD_PLUGIN_RESOURCE",
    rbdProvisionerResource := "CSI_RBD_PROVISIONER_RESOURCE",
    cephFSPluginResource := "CSI_CEPHFS_PLUGIN_RESOURCE",
    cephFSProvisionerResource := "CSI_CEPHFS_PROVISIONER_RESOURCE",
    nfsPluginResource := "CSI_NFS_PLUGIN_RESOURCE",
    nfsProvisionerResource := "CSI_NFS_PROVISIONER_RESOURCE" }

/-- A configuration with two domain labels and the on-delete strategy. -/
def sampleParam : Param :=
  { LogLevel := 0, CSIEnableMetadata := false, EnableOMAPGenerator := false,
    ProvisionerPriorityClassName := "system-cluster-critical",
    PluginPriorityClassName := "system-node-critical",
    KubeletDirPath := "/var/lib/kubelet", EnablePluginSelinuxHostMount := false,
    ProvisionerReplicas := 2, EnableCSIAddonsSideCar := false,
    ForceCephFSKernelClient := "true", RBDLivenessMetricsPort := 9080,
    CephFSLivenessMetricsPort := 9081, VolumeGroupSnapshotCLIFlag := "",
    CSIDomainLabels := "zone,rack", RBDPluginUpdateStrategy := "OnDelete" }

/-- The spec generated for cluster "my-cluster" under the sample configuration. -/
def sampleGeneratedSpec : DriverSpec :=
  match (generateDriverSpec samplePackage sampleParam ⟨[], []⟩ "my-cluster").2 with
  | .ok spec => spec
  | .error _ => emptyDriverSpec

/-- A `Driver` client that reads and creates like the in-memory one and whose every
`Update` fails with the given error. -/
def failingUpdateClient (updateErr : GoError) : Client Cluster where
  Get := memClient.Get
  Create := memClient.Create
  Update s _ := (s, some updateErr)

/-- An error of the API server that is not not-found. -/
def serverError : GoError := .status false "etcdserver: request timed out"

/-- The arguments an error message is rendered with, outermost wrapper only. -/
def GoError.args : GoError → List String
  | .status _ _ => []
  | .wrapf _ _ args => args

/-! ## Credential rotation and the dependents guard

The file-system controller (`pkg/operator/ceph/file`) is present in the source only
through its tests (`controller_test.go`).  Its reconcile logic is modelled here from
sections 3, 4.4 and 4.5 of the specification; where the specification leaves a case
open, the tests decide. -/

/-- Modelled from the spec: the credential status of section 4.4, whose Go type is
not in the source.  `NoKey` is the state before the first key acquisition,
`Unknown` the explicitly cleared (empty) status of a resource whose key material
exists, `Known` a tracked generation with the version it was produced under. -/
inductive CredentialStatus where
  | NoKey
  | Unknown
  | Known (generation : Nat) (producedUnderVersion : String)
deriving DecidableEq, Repr

/-- Modelled from the spec: a cluster capability (version); the version type is not
in the source. -/
structure CephVersion where
  Major : Nat
  Minor : Nat
  Extra : Nat
deriving DecidableEq, Repr

/-- Modelled from the spec: whether a version meets a minimum version requirement. -/
def CephVersion.isAtLeast (v minimum : CephVersion) : Bool :=
  decide (minimum.Major < v.Major) ||
  (decide (minimum.Major = v.Major) &&
    (decide (minimum.Minor < v.Minor) ||
      (decide (minimum.Minor = v.Minor) && decide (minimum.Extra ≤ v.Extra))))

/-- Modelled from the spec: the rotation policy of section 3; `enabled` comes from the
versions, `targetGeneration` from the operator configuration. -/
structure RotationPolicy where
  enabled : Bool
  targetGeneration : Nat
deriving DecidableEq, Repr

/-- Modelled from the spec: step 1 of section 4.4.  Rotation is enabled when both the
running and the desired version meet the minimum version, a constant that is not in
the source. -/
def rotationPolicy (minimum running desired : CephVersion) (targetGeneration : Nat) :
    RotationPolicy :=
  { enabled := running.isAtLeast minimum && desired.isAtLeast minimum,
    targetGeneration := targetGeneration }

/-- Modelled from the spec: an entry of the credential store, a `keyring` field that
the reconciler reads and overwrites, and its other fields. -/
structure CredentialStore where
  keyring : Option String
  otherFields : List (String × String)
deriving DecidableEq, Repr

/-- Modelled from the spec: the two key primitives of the command collaborator over
the cluster state `σ`; get-or-create is meant to be idempotent, rotate is not. -/
structure KeyCommands (σ : Type) where
  getOrCreateKey : σ → σ × Except GoError String
  rotateKey : σ → σ × Except GoError String

/-- Modelled from the spec: a command issued to the command collaborator,
"auth get-or-create-key" or "auth rotate". -/
inductive KeyCommand where
  | getOrCreateKey
  | rotate
deriving DecidableEq, Repr

/-- Modelled from the spec: what a reconcile pass holds of the credentials. -/
structure CredentialState where
  status : CredentialStatus
  store : CredentialStore
deriving DecidableEq, Repr

/-- Modelled from the spec: what a credential pass leaves behind, the cluster state,
the credentials, the commands issued in order, whether the dependent workloads were
signalled to restart, and the error returned. -/
structure CredentialPass (σ : Type) where
  cluster : σ
  state : CredentialState
  commands : List KeyCommand
  restartSignalled : Bool
  err : Option GoError

/-- Modelled from the spec: the default path of step 2 of section 4.4.  Key material
is ensured through the get-or-create primitive and written to the `keyring` field;
a status that is not `Known` becomes `Known` at generation 1 under the observed
version. -/
def ensureKey {σ : Type} (cmds : KeyCommands σ) (observedVersion : String) (s : σ)
    (st : CredentialState) : CredentialPass σ :=
  match cmds.getOrCreateKey s with
  | (s', .error err) =>
    { cluster := s', state := st, commands := [.getOrCreateKey], restartSignalled := false,
      err := some err }
  | (s', .ok key) =>
    { cluster := s',
      state :=
        { status :=
            match st.status with
            | .Known g v => .Known g v
            | _ => .Known 1 observedVersion,
          store := { st.store with keyring := some key } },
      commands := [.getOrCreateKey], restartSignalled := false, err := none }

/-- Modelled from the spec: the rotation transition of step 3 of section 4.4.  The
rotate primitive is invoked once; on success its key overwrites the `keyring` field
only, the status becomes `Known` at the target generation under the observed
version and the dependent workloads are signalled to restart. -/
def rotate {σ : Type} (cmds : KeyCommands σ) (targetGeneration : Nat)
    (observedVersion : String) (s : σ) (st : CredentialState) : CredentialPass σ :=
  match cmds.rotateKey s with
  | (s', .error err) =>
    { cluster := s', state := st, commands := [.rotate], restartSignalled := false,
      err := some err }
  | (s', .ok key) =>
    { cluster := s',
      state :=
        { status := .Known targetGeneration observedVersion,
          store := { st.store with keyring := some key } },
      commands := [.rotate], restartSignalled := true, err := none }

/-- Modelled from the spec: a pass that issues no command and changes nothing. -/
def unchangedPass {σ : Type} (s : σ) (st : CredentialState) : CredentialPass σ :=
  { cluster := s, state := st, commands := [], restartSignalled := false, err := none }

/-- Modelled from the spec: the generation the rotation gate compares the target
with: the generation of a `Known` status, 0 for the cleared status `Unknown` (the
empty status of the tests, whose rotation at target generation 2 they assert). -/
def gateGeneration : CredentialStatus → Nat
  | .Known g _ => g
  | _ => 0

/-- Modelled from the spec: one reconcile pass of the credential rotation state
machine of section 4.4, whose code is not in the source.  With rotation disabled the
default path runs.  With rotation enabled, a first key acquisition (`NoKey`) takes
the default path as well; otherwise the rotate primitive is called exactly when the
target generation is greater than the gate generation, and a pass without rotation
leaves status and store as they are: a cleared status stays `Unknown`, no
generation is derived from the stored material. -/
def reconcileCredentials {σ : Type} (cmds : KeyCommands σ) (policy : RotationPolicy)
    (observedVersion : String) (s : σ) (st : CredentialState) : CredentialPass σ :=
  if policy.enabled = false then ensureKey cmds observedVersion s st
  else
    match st.status with
    | .NoKey => ensureKey cmds observedVersion s st
    | status =>
      if policy.targetGeneration > gateGeneration status then
        rotate cmds policy.targetGeneration observedVersion s st
      else unchangedPass s st

/-- Modelled from the spec: the number of rotate calls among the commands of a pass. -/
def rotateCalls (commands : List KeyCommand) : Nat :=
  commands.count .rotate

/-- Modelled from the spec: a command collaborator for the examples, the key the
cluster holds now and the keys later rotate calls will hand out. -/
structure CephAuth where
  current : String
  upcoming : List String
deriving DecidableEq, Repr

/-- Modelled from the spec: the key primitives over `CephAuth`; get-or-create answers
the current key, rotate moves to the next key and answers it. -/
def cephAuthCommands : KeyCommands CephAuth where
  getOrCreateKey s := (s, .ok s.current)
  rotateKey s :=
    match s.upcoming with
    | [] => (s, .error (.status false "auth rotate failed"))
    | k :: ks => ({ current := k, upcoming := ks }, .ok k)

/-- Modelled from the spec: the cluster of the tests, holding the first key and about
to hand out the keys "BBBB" and "CCCC". -/
def sampleAuth : CephAuth :=
  { current := "AQCvzWBeIV9lFRAAninzm+8XFxbSfTiPwoX50g==", upcoming := ["BBBB", "CCCC"] }

/-- Modelled from the spec: the credential store of the tests after the first pass. -/
def sampleCredentialStore : CredentialStore :=
  { keyring := some "AQCvzWBeIV9lFRAAninzm+8XFxbSfTiPwoX50g==",
    otherFields := [("owner", "my-fs")] }

/-- Modelled from the spec: one entry of the dependent list of section 3, the kind
and the name of an object that references the resource being deleted. -/
structure Dependent where
  kind : String
  name : String
deriving DecidableEq, Repr

/-- Modelled from the spec: the dependent list, an ordered set of (kind, name) pairs. -/
abbrev DependentList := List Dependent

/-- Modelled from the spec: what the guard sees of the resource under deletion, its
finalizers and whether it has been deleted. -/
structure ManagedResource where
  name : String
  finalizers : List String
  deleted : Bool
deriving DecidableEq, Repr

/-- Modelled from the spec: a notification handed to the event sink. -/
structure Event where
  identity : String
  reason : String
  message : String
deriving DecidableEq, Repr

/-- Modelled from the spec: the result of a reconcile pass; the zero value asks for no
retry. -/
structure ReconcileResult where
  Requeue : Bool
  RequeueAfter : Nat
deriving DecidableEq, Repr

/-- Modelled from the spec: whether a result is the zero value. -/
def ReconcileResult.IsZero (r : ReconcileResult) : Bool :=
  !r.Requeue && r.RequeueAfter == 0

/-- Modelled from the spec: the text that names every dependent by kind and name. -/
def renderDependents : DependentList → String
  | [] => ""
  | d :: ds => d.kind ++ ": " ++ d.name ++ "; " ++ renderDependents ds

/-- Modelled from the spec: what a deletion-phase pass leaves behind. -/
structure GuardPass where
  resource : ManagedResource
  events : List Event
  result : ReconcileResult
  err : Option GoError
deriving DecidableEq, Repr

/-- Modelled from the spec: one deletion-phase reconcile pass under the dependents
guard of section 4.5, whose code is not in the source; `checked` is what the
dependents check answered.  With dependents the resource is left as it is, one
event naming every dependent is emitted and a retry is scheduled; with none the
finalizer is removed and the resource deleted; a failed check is returned as the
error of the pass. -/
def deletionPass (finalizer : String) (retryAfter : Nat)
    (checked : Except GoError DependentList) (res : ManagedResource) : GuardPass :=
  match checked with
  | .error err =>
    { resource := res, events := [], result := { Requeue := false, RequeueAfter := 0 },
      err := some err }
  | .ok deps =>
    if deps ≠ [] then
      { resource := res,
        events :=
          [{ identity := res.name, reason := "ReconcileFailed",
             message := "will not be deleted until all dependents are removed: " ++
               renderDependents deps }],
        result := { Requeue := true, RequeueAfter := retryAfter },
        err := none }
    else
      { resource :=
          { res with
            finalizers := res.finalizers.filter (fun f => decide (f ≠ finalizer)),
            deleted := true },
        events := [], result := { Requeue := false, RequeueAfter := 0 }, err := none }

/-- Modelled from the spec: deletion-phase passes repeated, one for each answer of the
dependents check in turn; the resource after the last pass and all events emitted. -/
def runDeletionPasses (finalizer : String) (retryAfter : Nat) :
    List (Except GoError DependentList) → ManagedResource → ManagedResource × List Event
  | [], res => (res, [])
  | checked :: rest, res =>
    let pass := deletionPass finalizer retryAfter checked res
    let later := runDeletionPasses finalizer retryAfter rest pass.resource
    (later.1, pass.events ++ later.2)

/-- Modelled from the spec: the file system of the tests, under deletion. -/
def sampleFilesystem : ManagedResource :=
  { name := "my-fs", finalizers := ["cephfilesystem.ceph.rook.io"], deleted := false }

/-- Modelled from the spec: a credential store whose keyring is not the key the
cluster holds. -/
def staleCredentialStore : CredentialStore :=
  { keyring := some "stale-key", otherFields := [("owner", "my-fs")] }

/-! ## Theorems: `createOrUpdateDriverResource` -/

/-- The outcome on the update path, with the fetched object in hand. -/
theorem createOrUpdateDriverResource_of_get_ok {σ : Type} (r : ReconcileCSI σ)
    (opConfigCRName : String) (s : σ) (driverResource fetched : Driver)
    (hget : r.client.Get s { Namespace := r.OperatorNamespace,
                             Name := driverResource.ObjectMeta.Name } = .ok fetched) :
    createOrUpdateDriverResource r opConfigCRName s driverResource =
      { store := (r.client.Update s { fetched with Spec := driverResource.Spec }).1,
        calls := [.GetDriver { Namespace := r.OperatorNamespace,
                               Name := driverResource.ObjectMeta.Name },
                  .UpdateDriver { fetched with Spec := driverResource.Spec }],
        err := (r.client.Update s { fetched with Spec := driverResource.Spec }).2.map
          (fun e => .wrapf e "failed to update CSI-operator driver CR %q"
            [fetched.ObjectMeta.Name]) } := by
  unfold createOrUpdateDriverResource
  simp only [hget]
  rcases hu : r.client.Update s { fetched with Spec := driverResource.Spec } with ⟨s', _ | e⟩ <;>
    simp [hu]

/-- The outcome on the create path, after a not-found fetch. -/
theorem createOrUpdateDriverResource_of_not_found {σ : Type} (r : ReconcileCSI σ)
    (opConfigCRName : String) (s : σ) (driverResource : Driver) (e : GoError)
    (hget : r.client.Get s { Namespace := r.OperatorNamespace,
                             Name := driverResource.ObjectMeta.Name } = .error e)
    (hnf : IsNotFound e = true) :
    createOrUpdateDriverResource r opConfigCRName s driverResource =
      { store := (r.client.Create s driverResource).1,
        calls := [.GetDriver { Namespace := r.OperatorNamespace,
                               Name := driverResource.ObjectMeta.Name },
                  .CreateDriver driverResource],
        err := (r.client.Create s driverResource).2.map
          (fun e => .wrapf e "failed to create CSI-operator driver CR %q"
            [driverResource.ObjectMeta.Name]) } := by
  unfold createOrUpdateDriverResource
  simp only [hget, hnf]
  rcases hc : r.client.Create s driverResource with ⟨s', _ | e'⟩ <;> simp [hc]

/-- The outcome after a fetch failure that is not not-found. -/
theorem createOrUpdateDriverResource_of_get_failed {σ : Type} (r : ReconcileCSI σ)
    (opConfigCRName : String) (s : σ) (driverResource : Driver) (e : GoError)
    (hget : r.client.Get s { Namespace := r.OperatorNamespace,
                             Name := driverResource.ObjectMeta.Name } = .error e)
    (hnf : IsNotFound e = false) :
    createOrUpdateDriverResource r opConfigCRName s driverResource =
      { store := s,
        calls := [.GetDriver { Namespace := r.OperatorNamespace,
                               Name := driverResource.ObjectMeta.Name }],
        err := some (.wrapf e "failed to get CSI-operator  driver CR %q" [opConfigCRName]) } := by
  unfold createOrUpdateDriverResource
  simp [hget, hnf]

/-- Replacing a present object makes it the one found under its identity. -/
theorem find_replaceDriver (obj : Driver) (ds : List Driver) (d : Driver)
    (h : ds.find? (fun x => decide (driverKey x = driverKey obj)) = some d) :
    (replaceDriver obj ds).find? (fun x => decide (driverKey x = driverKey obj)) = some obj := by
  induction ds with
  | nil => simp at h
  | cons x xs ih =>
    by_cases hx : driverKey x = driverKey obj
    · simp [replaceDriver, hx]
    · simp only [List.find?_cons, hx, decide_False] at h
      simp [replaceDriver, hx, ih h]

/-- The stamping client is a store whose calls succeed and which keeps identity and
spec of what it is given. -/
theorem stampingClient_succeeding : SucceedingStore stampingClient where
  get_absent := by
    intro s k e h
    simp only [stampingClient, memClient] at h
    split at h
    · cases h
    · cases h
      rfl
  get_key := by
    intro s k o h
    simp only [stampingClient, memClient] at h
    split at h
    · rename_i d hd
      cases h
      simpa using List.find?_some hd
    · cases h
  create_ok := by
    intro s o e h
    have hk : driverKey (stampResourceVersion o) = driverKey o := rfl
    simp only [stampingClient, memClient, hk] at h ⊢
    split at h
    · cases h
    · rename_i hd
      simp [hd]
  update_ok := by
    intro s o o' h
    have hk : driverKey (stampResourceVersion o) = driverKey o := rfl
    simp only [stampingClient, memClient, hk] at h ⊢
    split at h
    · rename_i d hd
      simp [hd]
    · cases h
  get_create := by
    intro s o h
    have hk : driverKey (stampResourceVersion o) = driverKey o := rfl
    refine ⟨stampResourceVersion o, ?_, rfl⟩
    simp only [stampingClient, memClient, hk] at h ⊢
    split at h
    · simp at h
    · rename_i hd
      simp [hd, List.find?_append, hk]
  get_update := by
    intro s o h
    have hk : driverKey (stampResourceVersion o) = driverKey o := rfl
    refine ⟨stampResourceVersion o, ?_, rfl⟩
    simp only [stampingClient, memClient, hk] at h ⊢
    split at h
    · rename_i d hd
      have hfind := find_replaceDriver (stampResourceVersion o) s.drivers d (by rw [hk]; exact hd)
      rw [hk] at hfind
      simp [hd, hfind]
    · simp [notFoundError] at h

/-- The in-memory client is a store whose calls succeed and which keeps identity and
spec of what it is given. -/
theorem memClient_succeeding : SucceedingStore memClient where
  get_absent := by
    intro s k e h
    simp only [memClient] at h
    split at h
    · cases h
    · cases h
      rfl
  get_key := by
    intro s k o h
    simp only [memClient] at h
    split at h
    · rename_i d hd
      cases h
      simpa using List.find?_some hd
    · cases h
  create_ok := by
    intro s o e h
    simp only [memClient] at h ⊢
    split at h
    · cases h
    · rename_i hd
      simp [hd]
  update_ok := by
    intro s o o' h
    simp only [memClient] at h ⊢
    split at h
    · rename_i d hd
      simp [hd]
    · cases h
  get_create := by
    intro s o h
    refine ⟨o, ?_, rfl⟩
    simp only [memClient] at h ⊢
    split at h
    · simp at h
    · rename_i hd
      simp [hd, List.find?_append]
  get_update := by
    intro s o h
    refine ⟨o, ?_, rfl⟩
    simp only [memClient] at h ⊢
    split at h
    · rename_i d hd
      simp [hd, find_replaceDriver o s.drivers d hd]
    · simp [notFoundError] at h

/-- The in-memory client yields on `Get` the object an `Update` was given. -/
theorem memClient_update_verbatim (s : Cluster) (o : Driver)
    (h : (memClient.Update s o).2 = none) :
    memClient.Get (memClient.Update s o).1 (driverKey o) = .ok o := by
  simp only [memClient] at h ⊢
  split at h
  · rename_i d hd
    simp [hd, find_replaceDriver o s.drivers d hd]
  · simp [notFoundError] at h

/-- C1. Update path: when the store holds a Driver under the given name and the
operator namespace, the calls issued are the fetch and one Update, and the object
passed to Update is the fetched object with its Spec replaced by the desired spec;
its metadata (name, namespace, resource version, labels, annotations, ...) and its
status are those of the fetched object. -/
theorem createOrUpdateDriverResource_update_frame {σ : Type} (r : ReconcileCSI σ)
    (opConfigCRName : String) (s : σ) (driverResource fetched : Driver)
    (hget : r.client.Get s { Namespace := r.OperatorNamespace,
                             Name := driverResource.ObjectMeta.Name } = .ok fetched) :
    ∃ updated : Driver,
      (createOrUpdateDriverResource r opConfigCRName s driverResource).calls =
        [.GetDriver { Namespace := r.OperatorNamespace, Name := driverResource.ObjectMeta.Name },
         .UpdateDriver updated] ∧
      updated = { fetched with Spec := driverResource.Spec } ∧
      updated.Spec = driverResource.Spec ∧
      updated.ObjectMeta = fetched.ObjectMeta ∧
      updated.ObjectMeta.Name = fetched.ObjectMeta.Name ∧
      updated.ObjectMeta.Namespace = fetched.ObjectMeta.Namespace ∧
      updated.ObjectMeta.ResourceVersion = fetched.ObjectMeta.ResourceVersion ∧
      updated.ObjectMeta.Labels = fetched.ObjectMeta.Labels ∧
      updated.ObjectMeta.Annotations = fetched.ObjectMeta.Annotations ∧
      updated.Status = fetched.Status := by
  refine ⟨{ fetched with Spec := driverResource.Spec }, ?_, rfl, rfl, rfl, rfl, rfl, rfl, rfl,
    rfl, rfl⟩
  rw [createOrUpdateDriverResource_of_get_ok r opConfigCRName s driverResource fetched hget]

/-- C1 at a concrete store: the stored driver keeps its server-assigned metadata and
status while its spec becomes the desired one. -/
theorem createOrUpdateDriverResource_update_frame_witness :
    (memReconciler "rook-ceph").client.Get ⟨[sampleStored], []⟩
        { Namespace := (memReconciler "rook-ceph").OperatorNamespace,
          Name := sampleDesired.ObjectMeta.Name } = .ok sampleStored ∧
    ∃ updated : Driver,
      (createOrUpdateDriverResource (memReconciler "rook-ceph") "ceph-csi-operator-config"
          ⟨[sampleStored], []⟩ sampleDesired).calls =
        [.GetDriver { Namespace := "rook-ceph", Name := sampleDesired.ObjectMeta.Name },
         .UpdateDriver updated] ∧
      updated = { sampleStored with Spec := sampleDesired.Spec } ∧
      updated.Spec = sampleDesired.Spec ∧
      updated.ObjectMeta = sampleStored.ObjectMeta ∧
      updated.ObjectMeta.Name = sampleStored.ObjectMeta.Name ∧
      updated.ObjectMeta.Namespace = sampleStored.ObjectMeta.Namespace ∧
      updated.ObjectMeta.ResourceVersion = sampleStored.ObjectMeta.ResourceVersion ∧
      updated.ObjectMeta.Labels = sampleStored.ObjectMeta.Labels ∧
      updated.ObjectMeta.Annotations = sampleStored.ObjectMeta.Annotations ∧
      updated.Status = sampleStored.Status :=
  ⟨by rfl,
   createOrUpdateDriverResource_update_frame (memReconciler "rook-ceph")
     "ceph-csi-operator-config" ⟨[sampleStored], []⟩ sampleDesired sampleStored (by rfl)⟩

/-- C2. Create path: when the fetch answers not-found and Create succeeds, for the
object that carries the given name, the operator namespace and the desired spec,
the calls issued are the fetch and exactly one Create of that very object (whose
identity is the one fetched), no Update is issued, and the call returns success. -/
theorem createOrUpdateDriverResource_create {σ : Type} (r : ReconcileCSI σ)
    (opConfigCRName : String) (s : σ) (driverResource : Driver) (e : GoError)
    (hns : driverResource.ObjectMeta.Namespace = r.OperatorNamespace)
    (hget : r.client.Get s { Namespace := r.OperatorNamespace,
                             Name := driverResource.ObjectMeta.Name } = .error e)
    (hnf : IsNotFound e = true)
    (hcreate : (r.client.Create s driverResource).2 = none) :
    ∃ created : Driver,
      (createOrUpdateDriverResource r opConfigCRName s driverResource).calls =
        [.GetDriver { Namespace := r.OperatorNamespace, Name := driverResource.ObjectMeta.Name },
         .CreateDriver created] ∧
      created.ObjectMeta.Name = driverResource.ObjectMeta.Name ∧
      created.ObjectMeta.Namespace = r.OperatorNamespace ∧
      created.Spec = driverResource.Spec ∧
      created = driverResource ∧
      (∀ obj, Call.UpdateDriver obj ∉
        (createOrUpdateDriverResource r opConfigCRName s driverResource).calls) ∧
      (createOrUpdateDriverResource r opConfigCRName s driverResource).err = none ∧
      (createOrUpdateDriverResource r opConfigCRName s driverResource).store =
        (r.client.Create s driverResource).1 := by
  rw [createOrUpdateDriverResource_of_not_found r opConfigCRName s driverResource e hget hnf]
  refine ⟨driverResource, rfl, rfl, hns, rfl, rfl, ?_, ?_, rfl⟩
  · intro obj hmem
    simp at hmem
  · simp [hcreate]

/-- C2 at a concrete store: on the empty cluster the desired driver is created. -/
theorem createOrUpdateDriverResource_create_witness :
    sampleDesired.ObjectMeta.Namespace = (memReconciler "rook-ceph").OperatorNamespace ∧
    ∃ created : Driver,
      (createOrUpdateDriverResource (memReconciler "rook-ceph") "ceph-csi-operator-config"
          ⟨[], []⟩ sampleDesired).calls =
        [.GetDriver { Namespace := "rook-ceph", Name := sampleDesired.ObjectMeta.Name },
         .CreateDriver created] ∧
      created.ObjectMeta.Name = sampleDesired.ObjectMeta.Name ∧
      created.ObjectMeta.Namespace = "rook-ceph" ∧
      created.Spec = sampleDesired.Spec ∧
      created = sampleDesired ∧
      (∀ obj, Call.UpdateDriver obj ∉
        (createOrUpdateDriverResource (memReconciler "rook-ceph") "ceph-csi-operator-config"
          ⟨[], []⟩ sampleDesired).calls) ∧
      (createOrUpdateDriverResource (memReconciler "rook-ceph") "ceph-csi-operator-config"
          ⟨[], []⟩ sampleDesired).err = none ∧
      (createOrUpdateDriverResource (memReconciler "rook-ceph") "ceph-csi-operator-config"
          ⟨[], []⟩ sampleDesired).store = ⟨[sampleDesired], []⟩ :=
  ⟨rfl,
   createOrUpdateDriverResource_create (memReconciler "rook-ceph") "ceph-csi-operator-config"
     ⟨[], []⟩ sampleDesired notFoundError rfl rfl rfl rfl⟩

/-- C3, as stated, fails: over the client of a server that assigns a new resource
version on every write, every call of the two passes succeeds, yet the object
stored after the second call (resource version "42+1+1") is not the object stored
after the first call (resource version "42+1"). -/
theorem createOrUpdateDriverResource_idempotent_counterexample :
    (createOrUpdateDriverResource (stampingReconciler "rook-ceph") "ceph-csi-operator-config"
      ⟨[sampleStored], []⟩ sampleDesired).err = none ∧
    (createOrUpdateDriverResource (stampingReconciler "rook-ceph") "ceph-csi-operator-config"
      (createOrUpdateDriverResource (stampingReconciler "rook-ceph")
        "ceph-csi-operator-config" ⟨[sampleStored], []⟩ sampleDesired).store
      sampleDesired).err = none ∧
    stampingClient.Get
      (createOrUpdateDriverResource (stampingReconciler "rook-ceph")
        "ceph-csi-operator-config" ⟨[sampleStored], []⟩ sampleDesired).store
      ⟨"rook-ceph", "rook-ceph.rbd.csi.ceph.com"⟩ =
        .ok (stampResourceVersion { sampleStored with Spec := sampleSpec }) ∧
    stampingClient.Get
      (createOrUpdateDriverResource (stampingReconciler "rook-ceph") "ceph-csi-operator-config"
        (createOrUpdateDriverResource (stampingReconciler "rook-ceph")
          "ceph-csi-operator-config" ⟨[sampleStored], []⟩ sampleDesired).store
        sampleDesired).store
      ⟨"rook-ceph", "rook-ceph.rbd.csi.ceph.com"⟩ =
        .ok (stampResourceVersion
          (stampResourceVersion { sampleStored with Spec := sampleSpec })) ∧
    (stampResourceVersion { sampleStored with Spec := sampleSpec }).ObjectMeta.ResourceVersion =
      "42+1" ∧
    (stampResourceVersion (stampResourceVersion
      { sampleStored with Spec := sampleSpec })).ObjectMeta.ResourceVersion = "42+1+1" ∧
    stampResourceVersion (stampResourceVersion { sampleStored with Spec := sampleSpec }) ≠
      stampResourceVersion { sampleStored with Spec := sampleSpec } := by
  refine ⟨rfl, rfl, rfl, rfl, rfl, rfl, ?_⟩
  decide

/-- C3, amended. Over a store whose Get, Create and Update succeed and which keeps the
identity and the spec of what it is given, whether the object is absent or present
at first, a first call for the object carrying the operator namespace and a second
call with the same name and the same desired spec both return no error; the
second call's only write is an Update that hands the object stored after the first
call back unchanged; the objects stored after the first and after the second call
have the same identity and the same spec, the desired one; and they are identical
when the store yields on Get the object an Update was given. -/
theorem createOrUpdateDriverResource_second_call {σ : Type} (r : ReconcileCSI σ)
    (hstore : SucceedingStore r.client) (opConfigCRName : String) (s : σ)
    (driverResource again : Driver)
    (hns : driverResource.ObjectMeta.Namespace = r.OperatorNamespace)
    (hname : again.ObjectMeta.Name = driverResource.ObjectMeta.Name)
    (hspec : again.Spec = driverResource.Spec) :
    (createOrUpdateDriverResource r opConfigCRName s driverResource).err = none ∧
    (createOrUpdateDriverResource r opConfigCRName
      (createOrUpdateDriverResource r opConfigCRName s driverResource).store again).err = none ∧
    ∃ stored1 stored2 : Driver,
      r.client.Get (createOrUpdateDriverResource r opConfigCRName s driverResource).store
        ⟨r.OperatorNamespace, driverResource.ObjectMeta.Name⟩ = .ok stored1 ∧
      (createOrUpdateDriverResource r opConfigCRName
        (createOrUpdateDriverResource r opConfigCRName s driverResource).store again).calls =
          [.GetDriver ⟨r.OperatorNamespace, driverResource.ObjectMeta.Name⟩,
           .UpdateDriver stored1] ∧
      r.client.Get (createOrUpdateDriverResource r opConfigCRName
          (createOrUpdateDriverResource r opConfigCRName s driverResource).store again).store
        ⟨r.OperatorNamespace, driverResource.ObjectMeta.Name⟩ = .ok stored2 ∧
      stored1.Spec = driverResource.Spec ∧
      stored2.Spec = driverResource.Spec ∧
      driverKey stored1 = ⟨r.OperatorNamespace, driverResource.ObjectMeta.Name⟩ ∧
      driverKey stored2 = ⟨r.OperatorNamespace, driverResource.ObjectMeta.Name⟩ ∧
      ((∀ s' o, (r.client.Update s' o).2 = none →
          r.client.Get (r.client.Update s' o).1 (driverKey o) = .ok o) →
        stored2 = stored1) := by
  have hkey : driverKey driverResource =
      ⟨r.OperatorNamespace, driverResource.ObjectMeta.Name⟩ := by
    simp [driverKey, hns]
  -- the second call, from any state that stores `stored1` with the desired spec
  have second : ∀ (s1 : σ) (stored1 : Driver),
      r.client.Get s1 ⟨r.OperatorNamespace, driverResource.ObjectMeta.Name⟩ = .ok stored1 →
      stored1.Spec = driverResource.Spec →
      (createOrUpdateDriverResource r opConfigCRName s1 again).err = none ∧
      ∃ stored2 : Driver,
        (createOrUpdateDriverResource r opConfigCRName s1 again).calls =
          [.GetDriver ⟨r.OperatorNamespace, driverResource.ObjectMeta.Name⟩,
           .UpdateDriver stored1] ∧
        r.client.Get (createOrUpdateDriverResource r opConfigCRName s1 again).store
          ⟨r.OperatorNamespace, driverResource.ObjectMeta.Name⟩ = .ok stored2 ∧
        stored2.Spec = driverResource.Spec ∧
        driverKey stored1 = ⟨r.OperatorNamespace, driverResource.ObjectMeta.Name⟩ ∧
        driverKey stored2 = ⟨r.OperatorNamespace, driverResource.ObjectMeta.Name⟩ ∧
        ((∀ s' o, (r.client.Update s' o).2 = none →
            r.client.Get (r.client.Update s' o).1 (driverKey o) = .ok o) →
          stored2 = stored1) := by
    intro s1 stored1 hg hs
    have hg2 : r.client.Get s1 ⟨r.OperatorNamespace, again.ObjectMeta.Name⟩ = .ok stored1 := by
      rw [hname]; exact hg
    have hsame : ({ stored1 with Spec := again.Spec } : Driver) = stored1 := by
      rw [hspec, ← hs]
    have hk : driverKey stored1 = ⟨r.OperatorNamespace, driverResource.ObjectMeta.Name⟩ :=
      hstore.get_key _ _ _ hg
    have hu : (r.client.Update s1 stored1).2 = none :=
      hstore.update_ok s1 stored1 stored1 (by rw [hk]; exact hg)
    obtain ⟨stored2, hget2, hspec2⟩ := hstore.get_update s1 stored1 hu
    rw [hk] at hget2
    rw [createOrUpdateDriverResource_of_get_ok r opConfigCRName s1 again stored1 hg2, hsame,
      hname]
    refine ⟨by simp [hu], stored2, rfl, hget2, hspec2.trans hs, hk,
      hstore.get_key _ _ _ hget2, ?_⟩
    intro hverbatim
    have hv := hverbatim s1 stored1 hu
    rw [hk, hget2] at hv
    exact Except.ok.inj hv
  rcases hget : r.client.Get s ⟨r.OperatorNamespace, driverResource.ObjectMeta.Name⟩ with
    e | fetched
  · have hnf := hstore.get_absent _ _ _ hget
    have hc : (r.client.Create s driverResource).2 = none :=
      hstore.create_ok s driverResource e (by rw [hkey]; exact hget)
    have hfirst := createOrUpdateDriverResource_of_not_found r opConfigCRName s driverResource e
      hget hnf
    obtain ⟨stored1, hstored, hs1⟩ := hstore.get_create s driverResource hc
    rw [hkey] at hstored
    rw [hfirst]
    obtain ⟨h1, stored2, h2, h3, h4, h5, h6, h7⟩ := second _ stored1 hstored hs1
    exact ⟨by simp [hc], h1, stored1, stored2, hstored, h2, h3, hs1, h4, h5, h6, h7⟩
  · have hk : driverKey fetched =
        ⟨r.OperatorNamespace, driverResource.ObjectMeta.Name⟩ :=
      hstore.get_key _ _ _ hget
    have hk' : driverKey { fetched with Spec := driverResource.Spec } =
        ⟨r.OperatorNamespace, driverResource.ObjectMeta.Name⟩ := hk
    have hu : (r.client.Update s { fetched with Spec := driverResource.Spec }).2 = none :=
      hstore.update_ok s _ fetched (by rw [hk']; exact hget)
    have hfirst := createOrUpdateDriverResource_of_get_ok r opConfigCRName s driverResource
      fetched hget
    obtain ⟨stored1, hstored, hs1⟩ := hstore.get_update s _ hu
    rw [hk'] at hstored
    have hs1' : stored1.Spec = driverResource.Spec := hs1
    rw [hfirst]
    obtain ⟨h1, stored2, h2, h3, h4, h5, h6, h7⟩ := second _ stored1 hstored hs1'
    exact ⟨by simp [hu], h1, stored1, stored2, hstored, h2, h3, hs1', h4, h5, h6, h7⟩

/-- C3 amended, at the store of a server that stamps resource versions and holds an
older object: both calls succeed, the second call hands the stored object back
unchanged, and spec and identity are the same after both calls. -/
theorem createOrUpdateDriverResource_second_call_witness :
    (createOrUpdateDriverResource (stampingReconciler "rook-ceph") "ceph-csi-operator-config"
      ⟨[sampleStored], []⟩ sampleDesired).err = none ∧
    (createOrUpdateDriverResource (stampingReconciler "rook-ceph") "ceph-csi-operator-config"
      (createOrUpdateDriverResource (stampingReconciler "rook-ceph")
        "ceph-csi-operator-config" ⟨[sampleStored], []⟩ sampleDesired).store
      sampleDesired).err = none ∧
    ∃ stored1 stored2 : Driver,
      (stampingReconciler "rook-ceph").client.Get
        (createOrUpdateDriverResource (stampingReconciler "rook-ceph")
          "ceph-csi-operator-config" ⟨[sampleStored], []⟩ sampleDesired).store
        ⟨(stampingReconciler "rook-ceph").OperatorNamespace, sampleDesired.ObjectMeta.Name⟩ =
          .ok stored1 ∧
      (createOrUpdateDriverResource (stampingReconciler "rook-ceph")
        "ceph-csi-operator-config"
        (createOrUpdateDriverResource (stampingReconciler "rook-ceph")
          "ceph-csi-operator-config" ⟨[sampleStored], []⟩ sampleDesired).store
        sampleDesired).calls =
          [.GetDriver ⟨(stampingReconciler "rook-ceph").OperatorNamespace,
             sampleDesired.ObjectMeta.Name⟩,
           .UpdateDriver stored1] ∧
      (stampingReconciler "rook-ceph").client.Get
        (createOrUpdateDriverResource (stampingReconciler "rook-ceph")
          "ceph-csi-operator-config"
          (createOrUpdateDriverResource (stampingReconciler "rook-ceph")
            "ceph-csi-operator-config" ⟨[sampleStored], []⟩ sampleDesired).store
          sampleDesired).store
        ⟨(stampingReconciler "rook-ceph").OperatorNamespace, sampleDesired.ObjectMeta.Name⟩ =
          .ok stored2 ∧
      stored1.Spec = sampleDesired.Spec ∧
      stored2.Spec = sampleDesired.Spec ∧
      driverKey stored1 =
        ⟨(stampingReconciler "rook-ceph").OperatorNamespace, sampleDesired.ObjectMeta.Name⟩ ∧
      driverKey stored2 =
        ⟨(stampingReconciler "rook-ceph").OperatorNamespace, sampleDesired.ObjectMeta.Name⟩ ∧
      ((∀ s' o, ((stampingReconciler "rook-ceph").client.Update s' o).2 = none →
          (stampingReconciler "rook-ceph").client.Get
            ((stampingReconciler "rook-ceph").client.Update s' o).1 (driverKey o) = .ok o) →
        stored2 = stored1) :=
  createOrUpdateDriverResource_second_call (stampingReconciler "rook-ceph")
    stampingClient_succeeding "ceph-csi-operator-config" ⟨[sampleStored], []⟩ sampleDesired
    sampleDesired rfl rfl rfl

/-- C4. `createOrUpdateDriverResource` returns an error exactly when (a) the fetch
fails with an error other than not-found, (b) the fetch answers not-found and
Create fails, or (c) the fetch succeeds and Update of the fetched object with the
desired spec fails; in every other case it returns success.  In case (a) the only
call issued is the fetch (neither Create nor Update) and the store is untouched. -/
theorem createOrUpdateDriverResource_error_iff {σ : Type} (r : ReconcileCSI σ)
    (opConfigCRName : String) (s : σ) (driverResource : Driver) :
    ((createOrUpdateDriverResource r opConfigCRName s driverResource).err ≠ none ↔
      ((∃ e, r.client.Get s ⟨r.OperatorNamespace, driverResource.ObjectMeta.Name⟩ = .error e ∧
          IsNotFound e = false) ∨
       (∃ e, r.client.Get s ⟨r.OperatorNamespace, driverResource.ObjectMeta.Name⟩ = .error e ∧
          IsNotFound e = true ∧ (r.client.Create s driverResource).2 ≠ none) ∨
       (∃ fetched,
          r.client.Get s ⟨r.OperatorNamespace, driverResource.ObjectMeta.Name⟩ = .ok fetched ∧
          (r.client.Update s { fetched with Spec := driverResource.Spec }).2 ≠ none))) ∧
    (∀ e, r.client.Get s ⟨r.OperatorNamespace, driverResource.ObjectMeta.Name⟩ = .error e →
      IsNotFound e = false →
      (createOrUpdateDriverResource r opConfigCRName s driverResource).calls =
        [.GetDriver ⟨r.OperatorNamespace, driverResource.ObjectMeta.Name⟩] ∧
      (createOrUpdateDriverResource r opConfigCRName s driverResource).store = s) := by
  constructor
  · rcases hget : r.client.Get s ⟨r.OperatorNamespace, driverResource.ObjectMeta.Name⟩ with
      e | fetched
    · cases hnf : IsNotFound e
      · rw [createOrUpdateDriverResource_of_get_failed r opConfigCRName s driverResource e
          hget hnf]
        simp [hnf]
      · rw [createOrUpdateDriverResource_of_not_found r opConfigCRName s driverResource e
          hget hnf]
        cases hc : (r.client.Create s driverResource).2 <;> simp [hnf, hc]
    · rw [createOrUpdateDriverResource_of_get_ok r opConfigCRName s driverResource fetched hget]
      cases hu : (r.client.Update s { fetched with Spec := driverResource.Spec }).2 <;>
        simp [hu]
  · intro e hget hnf
    rw [createOrUpdateDriverResource_of_get_failed r opConfigCRName s driverResource e hget hnf]
    exact ⟨rfl, rfl⟩

/-! ## Theorems: `transferCSIDriverOwner` -/

/-- Reading back the key just set. -/
theorem mapGet_mapSet_self (m : StringMap) (k v : String) : mapGet (mapSet m k v) k = some v := by
  induction m with
  | nil => simp [mapSet, mapGet]
  | cons p rest ih =>
    obtain ⟨k', v'⟩ := p
    by_cases h : k' = k
    · simp [mapSet, mapGet, h]
    · simp [mapSet, mapGet, h, ih]

/-- Setting a key leaves every other key as it was. -/
theorem mapGet_mapSet_of_ne (m : StringMap) (k v k2 : String) (hne : k2 ≠ k) :
    mapGet (mapSet m k v) k2 = mapGet m k2 := by
  induction m with
  | nil =>
    have : ¬ k = k2 := fun h => hne h.symm
    simp [mapSet, mapGet, this]
  | cons p rest ih =>
    obtain ⟨k', v'⟩ := p
    by_cases h : k' = k
    · subst h
      have : ¬ k' = k2 := fun h => hne h.symm
      simp [mapSet, mapGet, this]
    · by_cases h2 : k' = k2
      · subst h2
        simp [mapSet, mapGet, h]
      · simp [mapSet, mapGet, h, h2, ih]

/-- The outcome of `transferCSIDriverOwner` once `Get` handed back an object without
a not-found error and the ownership key was serialized to `val`. -/
theorem transferCSIDriverOwner_of_fetched {σ : Type} (r : ReconcileCSI σ)
    (jsonMarshal : NamespacedName → Except GoError String) (s : σ) (name : String)
    (d : CSIDriver) (err : Option GoError) (val : String)
    (hget : r.CSIDrivers.Get s name = (some d, err))
    (hnf : ∀ e, err = some e → IsNotFound e = false)
    (hm : jsonMarshal ⟨r.OperatorNamespace, d.ObjectMeta.Name⟩ = .ok val) :
    transferCSIDriverOwner r jsonMarshal s name =
      if mapGet (annotationsOf d) ownerRefKey = some val then
        .returned { store := s, calls := [.GetCSIDriver name], err := none }
      else
        .returned
          { store := (r.CSIDrivers.Update s (withOwnerRef d val)).1,
            calls := [.GetCSIDriver name, .UpdateCSIDriver (withOwnerRef d val)],
            err := (r.CSIDrivers.Update s (withOwnerRef d val)).2.map
              (fun e => .wrapf e "failed to update CSIDriver %s" [name]) } := by
  have tail : (if (!(match mapGet (annotationsOf d) ownerRefKey with
        | some v => (v, true)
        | none => ("", false)).2 ||
      (match mapGet (annotationsOf d) ownerRefKey with
        | some v => (v, true)
        | none => ("", false)).1 != val) = true then
      (match r.CSIDrivers.Update s (withOwnerRef d val) with
        | (s', some err) =>
          Completion.returned
            { store := s',
              calls := [.GetCSIDriver name, .UpdateCSIDriver (withOwnerRef d val)],
              err := some (.wrapf err "failed to update CSIDriver %s" [name]) }
        | (s', none) =>
          Completion.returned
            { store := s',
              calls := [.GetCSIDriver name, .UpdateCSIDriver (withOwnerRef d val)],
              err := none })
      else Completion.returned { store := s, calls := [.GetCSIDriver name], err := none }) =
      if mapGet (annotationsOf d) ownerRefKey = some val then
        .returned { store := s, calls := [.GetCSIDriver name], err := none }
      else
        .returned
          { store := (r.CSIDrivers.Update s (withOwnerRef d val)).1,
            calls := [.GetCSIDriver name, .UpdateCSIDriver (withOwnerRef d val)],
            err := (r.CSIDrivers.Update s (withOwnerRef d val)).2.map
              (fun e => .wrapf e "failed to update CSIDriver %s" [name]) } := by
    cases hg : mapGet (annotationsOf d) ownerRefKey with
    | none =>
      rcases hu : r.CSIDrivers.Update s (withOwnerRef d val) with ⟨s', _ | e⟩ <;> simp
    | some old =>
      by_cases hov : old = val
      · simp [hov]
      · rcases hu : r.CSIDrivers.Update s (withOwnerRef d val) with ⟨s', _ | e⟩ <;>
          simp [hov]
  unfold transferCSIDriverOwner
  simp only [hget]
  cases err with
  | none =>
    simp only [Bool.false_eq_true, if_false, ObjectKeyFromObject, hm]
    exact tail
  | some e =>
    simp only [hnf e rfl, Bool.false_eq_true, if_false, ObjectKeyFromObject, hm]
    exact tail

/-- C5. After a successful fetch of the CSIDriver and serialization of the ownership
key to `val`, `transferCSIDriverOwner` returns, and it issues an Update exactly when
the annotation under the fixed key "csi.ceph.io/ownerref" is absent or differs from
`val`; when the stored value equals `val` it issues no write, leaves the store as
it was and returns success. -/
theorem transferCSIDriverOwner_update_iff {σ : Type} (r : ReconcileCSI σ)
    (jsonMarshal : NamespacedName → Except GoError String) (s : σ) (name : String)
    (d : CSIDriver) (val : String)
    (hget : r.CSIDrivers.Get s name = (some d, none))
    (hm : jsonMarshal ⟨r.OperatorNamespace, d.ObjectMeta.Name⟩ = .ok val) :
    ∃ out : Outcome σ,
      transferCSIDriverOwner r jsonMarshal s name = .returned out ∧
      ((∃ obj, Call.UpdateCSIDriver obj ∈ out.calls) ↔
        (mapGet (annotationsOf d) "csi.ceph.io/ownerref" = none ∨
         ∃ old, mapGet (annotationsOf d) "csi.ceph.io/ownerref" = some old ∧ old ≠ val)) ∧
      (mapGet (annotationsOf d) "csi.ceph.io/ownerref" = some val →
        out.calls = [.GetCSIDriver name] ∧ countWrites out.calls = 0 ∧ out.store = s ∧
        out.err = none) := by
  have h := transferCSIDriverOwner_of_fetched r jsonMarshal s name d none val hget
    (fun e he => by cases he) hm
  have hk : ownerRefKey = "csi.ceph.io/ownerref" := rfl
  rw [← hk]
  by_cases hv : mapGet (annotationsOf d) ownerRefKey = some val
  · rw [if_pos hv] at h
    refine ⟨_, h, ?_, fun _ => ⟨rfl, rfl, rfl, rfl⟩⟩
    constructor
    · rintro ⟨obj, hmem⟩
      simp at hmem
    · rintro (hnone | ⟨old, hold, hne⟩)
      · rw [hnone] at hv
        cases hv
      · rw [hold] at hv
        exact absurd (Option.some.inj hv) hne
  · rw [if_neg hv] at h
    refine ⟨_, h, ?_, fun hv' => absurd hv' hv⟩
    constructor
    · intro _
      cases hg : mapGet (annotationsOf d) ownerRefKey with
      | none => exact Or.inl rfl
      | some old =>
        refine Or.inr ⟨old, rfl, ?_⟩
        intro hov
        exact hv (by rw [hg, hov])
    · intro _
      exact ⟨withOwnerRef d val, by simp⟩

/-- C5 at a concrete store: the sample CSIDriver has no ownership annotation, so the
call issues an Update. -/
theorem transferCSIDriverOwner_update_iff_witness :
    (memReconciler "rook-ceph").CSIDrivers.Get ⟨[], [sampleCSIDriver]⟩ sampleName =
      (some sampleCSIDriver, none) ∧
    jsonMarshalNamespacedName
      ⟨(memReconciler "rook-ceph").OperatorNamespace, sampleCSIDriver.ObjectMeta.Name⟩ =
        .ok sampleOwnerRef ∧
    ∃ out : Outcome Cluster,
      transferCSIDriverOwner (memReconciler "rook-ceph") jsonMarshalNamespacedName
        ⟨[], [sampleCSIDriver]⟩ sampleName = .returned out ∧
      ((∃ obj, Call.UpdateCSIDriver obj ∈ out.calls) ↔
        (mapGet (annotationsOf sampleCSIDriver) "csi.ceph.io/ownerref" = none ∨
         ∃ old, mapGet (annotationsOf sampleCSIDriver) "csi.ceph.io/ownerref" = some old ∧
           old ≠ sampleOwnerRef)) ∧
      (mapGet (annotationsOf sampleCSIDriver) "csi.ceph.io/ownerref" = some sampleOwnerRef →
        out.calls = [.GetCSIDriver sampleName] ∧ countWrites out.calls = 0 ∧
        out.store = ⟨[], [sampleCSIDriver]⟩ ∧ out.err = none) :=
  ⟨rfl, rfl,
   transferCSIDriverOwner_update_iff (memReconciler "rook-ceph") jsonMarshalNamespacedName
     ⟨[], [sampleCSIDriver]⟩ sampleName sampleCSIDriver sampleOwnerRef rfl rfl⟩

/-- C6. Transfer idempotence: for an existing CSIDriver whose ownership annotation is
absent or stale, over a store whose Update succeeds and persists the object it is
given, the first call issues exactly one Update and returns success, and the second
call with the same name and operator namespace, which serializes the same key,
issues no write and returns success: one write in total. -/
theorem transferCSIDriverOwner_twice {σ : Type} (r : ReconcileCSI σ)
    (jsonMarshal : NamespacedName → Except GoError String) (s : σ) (name : String)
    (d : CSIDriver) (val : String)
    (hget : r.CSIDrivers.Get s name = (some d, none))
    (hm : jsonMarshal ⟨r.OperatorNamespace, d.ObjectMeta.Name⟩ = .ok val)
    (hstale : mapGet (annotationsOf d) "csi.ceph.io/ownerref" ≠ some val)
    (hupdate : (r.CSIDrivers.Update s (withOwnerRef d val)).2 = none)
    (hpersist : r.CSIDrivers.Get (r.CSIDrivers.Update s (withOwnerRef d val)).1 name =
      (some (withOwnerRef d val), none)) :
    ∃ first second : Outcome σ,
      transferCSIDriverOwner r jsonMarshal s name = .returned first ∧
      transferCSIDriverOwner r jsonMarshal first.store name = .returned second ∧
      first.calls = [.GetCSIDriver name, .UpdateCSIDriver (withOwnerRef d val)] ∧
      first.err = none ∧
      second.calls = [.GetCSIDriver name] ∧
      second.err = none ∧
      second.store = first.store ∧
      countWrites (first.calls ++ second.calls) = 1 := by
  have hk : ownerRefKey = "csi.ceph.io/ownerref" := rfl
  rw [← hk] at hstale
  have h1 := transferCSIDriverOwner_of_fetched r jsonMarshal s name d none val hget
    (fun e he => by cases he) hm
  rw [if_neg hstale, hupdate] at h1
  have hm2 : jsonMarshal ⟨r.OperatorNamespace, (withOwnerRef d val).ObjectMeta.Name⟩ =
      .ok val := hm
  have h2 := transferCSIDriverOwner_of_fetched r jsonMarshal
    (r.CSIDrivers.Update s (withOwnerRef d val)).1 name (withOwnerRef d val) none val hpersist
    (fun e he => by cases he) hm2
  have hset : mapGet (annotationsOf (withOwnerRef d val)) ownerRefKey = some val :=
    mapGet_mapSet_self (annotationsOf d) ownerRefKey val
  rw [if_pos hset] at h2
  exact ⟨_, _, h1, h2, rfl, rfl, rfl, rfl, rfl, rfl⟩

/-- C6 at a concrete store: two transfers on the in-memory cluster write once. -/
theorem transferCSIDriverOwner_twice_witness :
    ∃ first second : Outcome Cluster,
      transferCSIDriverOwner (memReconciler "rook-ceph") jsonMarshalNamespacedName
        ⟨[], [sampleCSIDriver]⟩ sampleName = .returned first ∧
      transferCSIDriverOwner (memReconciler "rook-ceph") jsonMarshalNamespacedName
        first.store sampleName = .returned second ∧
      first.calls = [.GetCSIDriver sampleName,
                     .UpdateCSIDriver (withOwnerRef sampleCSIDriver sampleOwnerRef)] ∧
      first.err = none ∧
      second.calls = [.GetCSIDriver sampleName] ∧
      second.err = none ∧
      second.store = first.store ∧
      countWrites (first.calls ++ second.calls) = 1 :=
  transferCSIDriverOwner_twice (memReconciler "rook-ceph") jsonMarshalNamespacedName
    ⟨[], [sampleCSIDriver]⟩ sampleName sampleCSIDriver sampleOwnerRef rfl rfl (by decide) rfl rfl

/-- C7. When the CSIDriver fetch answers not-found, `transferCSIDriverOwner` returns
success, the only call issued is the fetch (no Update) and the store is unchanged. -/
theorem transferCSIDriverOwner_not_found {σ : Type} (r : ReconcileCSI σ)
    (jsonMarshal : NamespacedName → Except GoError String) (s : σ) (name : String)
    (ptr : Option CSIDriver) (e : GoError)
    (hget : r.CSIDrivers.Get s name = (ptr, some e))
    (hnf : IsNotFound e = true) :
    ∃ out : Outcome σ,
      transferCSIDriverOwner r jsonMarshal s name = .returned out ∧
      out.err = none ∧
      out.store = s ∧
      out.calls = [.GetCSIDriver name] ∧
      (∀ obj, Call.UpdateCSIDriver obj ∉ out.calls) := by
  refine ⟨{ store := s, calls := [.GetCSIDriver name], err := none }, ?_, rfl, rfl, rfl, ?_⟩
  · unfold transferCSIDriverOwner
    simp [hget, hnf]
  · intro obj hmem
    simp at hmem

/-- C7 at a concrete store: on the empty cluster the transfer is a successful no-op. -/
theorem transferCSIDriverOwner_not_found_witness :
    ∃ out : Outcome Cluster,
      transferCSIDriverOwner (memReconciler "rook-ceph") jsonMarshalNamespacedName
        ⟨[], []⟩ sampleName = .returned out ∧
      out.err = none ∧
      out.store = ⟨[], []⟩ ∧
      out.calls = [.GetCSIDriver sampleName] ∧
      (∀ obj, Call.UpdateCSIDriver obj ∉ out.calls) :=
  transferCSIDriverOwner_not_found (memReconciler "rook-ceph") jsonMarshalNamespacedName
    ⟨[], []⟩ sampleName none notFoundError rfl rfl

/-- C8. When `transferCSIDriverOwner` writes, the calls are the fetch and one Update,
and the object passed to Update is the fetched CSIDriver with the annotation
"csi.ceph.io/ownerref" set to `val`, the serialization of the key made of the fetched
object's name and the operator namespace; every other annotation and every other
field of the fetched object is unchanged. -/
theorem transferCSIDriverOwner_write_frame {σ : Type} (r : ReconcileCSI σ)
    (jsonMarshal : NamespacedName → Except GoError String) (s : σ) (name : String)
    (d : CSIDriver) (val : String)
    (hget : r.CSIDrivers.Get s name = (some d, none))
    (hm : jsonMarshal { Namespace := r.OperatorNamespace, Name := d.ObjectMeta.Name } = .ok val)
    (hstale : mapGet (annotationsOf d) "csi.ceph.io/ownerref" ≠ some val) :
    ∃ (out : Outcome σ) (updated : CSIDriver),
      transferCSIDriverOwner r jsonMarshal s name = .returned out ∧
      out.calls = [.GetCSIDriver name, .UpdateCSIDriver updated] ∧
      mapGet (annotationsOf updated) "csi.ceph.io/ownerref" = some val ∧
      (∀ k, k ≠ "csi.ceph.io/ownerref" →
        mapGet (annotationsOf updated) k = mapGet (annotationsOf d) k) ∧
      updated.ObjectMeta.Name = d.ObjectMeta.Name ∧
      updated.ObjectMeta.Namespace = d.ObjectMeta.Namespace ∧
      updated.ObjectMeta.UID = d.ObjectMeta.UID ∧
      updated.ObjectMeta.ResourceVersion = d.ObjectMeta.ResourceVersion ∧
      updated.ObjectMeta.Generation = d.ObjectMeta.Generation ∧
      updated.ObjectMeta.Labels = d.ObjectMeta.Labels ∧
      updated.ObjectMeta.OwnerReferences = d.ObjectMeta.OwnerReferences ∧
      updated.ObjectMeta.Finalizers = d.ObjectMeta.Finalizers ∧
      updated.Spec = d.Spec := by
  have hk : ownerRefKey = "csi.ceph.io/ownerref" := rfl
  rw [← hk] at hstale ⊢
  have h := transferCSIDriverOwner_of_fetched r jsonMarshal s name d none val hget
    (fun e he => by cases he) hm
  rw [if_neg hstale] at h
  refine ⟨_, withOwnerRef d val, h, rfl, ?_, ?_, rfl, rfl, rfl, rfl, rfl, rfl, rfl, rfl, rfl⟩
  · exact mapGet_mapSet_self (annotationsOf d) ownerRefKey val
  · intro k hne
    exact mapGet_mapSet_of_ne (annotationsOf d) ownerRefKey val k hne

/-- C8 at a concrete store: the sample CSIDriver, whose own namespace is empty,
gets the key with the operator namespace `rook-ceph` and keeps its other annotation. -/
theorem transferCSIDriverOwner_write_frame_witness :
    ∃ (out : Outcome Cluster) (updated : CSIDriver),
      transferCSIDriverOwner (memReconciler "rook-ceph") jsonMarshalNamespacedName
        ⟨[], [sampleCSIDriver]⟩ sampleName = .returned out ∧
      out.calls = [.GetCSIDriver sampleName, .UpdateCSIDriver updated] ∧
      mapGet (annotationsOf updated) "csi.ceph.io/ownerref" = some sampleOwnerRef ∧
      (∀ k, k ≠ "csi.ceph.io/ownerref" →
        mapGet (annotationsOf updated) k = mapGet (annotationsOf sampleCSIDriver) k) ∧
      updated.ObjectMeta.Name = sampleCSIDriver.ObjectMeta.Name ∧
      updated.ObjectMeta.Namespace = sampleCSIDriver.ObjectMeta.Namespace ∧
      updated.ObjectMeta.UID = sampleCSIDriver.ObjectMeta.UID ∧
      updated.ObjectMeta.ResourceVersion = sampleCSIDriver.ObjectMeta.ResourceVersion ∧
      updated.ObjectMeta.Generation = sampleCSIDriver.ObjectMeta.Generation ∧
      updated.ObjectMeta.Labels = sampleCSIDriver.ObjectMeta.Labels ∧
      updated.ObjectMeta.OwnerReferences = sampleCSIDriver.ObjectMeta.OwnerReferences ∧
      updated.ObjectMeta.Finalizers = sampleCSIDriver.ObjectMeta.Finalizers ∧
      updated.Spec = sampleCSIDriver.Spec :=
  transferCSIDriverOwner_write_frame (memReconciler "rook-ceph") jsonMarshalNamespacedName
    ⟨[], [sampleCSIDriver]⟩ sampleName sampleCSIDriver sampleOwnerRef rfl rfl (by decide)

/-- C9. The fetch error of `transferCSIDriverOwner` is discarded.  With a `Get` that
hands back the stored object together with an error that is not not-found, the
call goes on, issues an Update and returns success; with a `Get` that hands back a
nil pointer and that error, the call panics instead of returning the error. -/
theorem transferCSIDriverOwner_fetch_error_discarded :
    failingGetReconciler.CSIDrivers.Get ⟨[], [sampleCSIDriver]⟩ sampleName =
      (some sampleCSIDriver, some (.status false "etcdserver: request timed out")) ∧
    IsNotFound (.status false "etcdserver: request timed out") = false ∧
    transferCSIDriverOwner failingGetReconciler jsonMarshalNamespacedName
        ⟨[], [sampleCSIDriver]⟩ sampleName =
      .returned
        { store := ⟨[], [withOwnerRef sampleCSIDriver sampleOwnerRef]⟩,
          calls := [.GetCSIDriver sampleName,
                    .UpdateCSIDriver (withOwnerRef sampleCSIDriver sampleOwnerRef)],
          err := none } ∧
    failingGetReconciler.CSIDrivers.Get ⟨[], []⟩ sampleName =
      (none, some (.status false "etcdserver: request timed out")) ∧
    transferCSIDriverOwner failingGetReconciler jsonMarshalNamespacedName ⟨[], []⟩ sampleName =
      .panicked ⟨[], []⟩ [.GetCSIDriver sampleName] :=
  ⟨rfl, rfl, rfl, rfl, rfl⟩

/-! ## Theorems: allocation tables -/

/-- The loop body of the source is the row step of the reference fold. -/
theorem controllerPluginLoopBody_eq_reference (acc : ControllerPluginResourcesSpec)
    (r : ContainerResource) :
    controllerPluginLoopBody acc r = referenceControllerRow acc r := by
  unfold controllerPluginLoopBody referenceControllerRow
  by_cases hempty : r.Resource = emptyResourceRequirements
  · simp [hempty]
  · simp only [hempty, ne_eq, not_false_eq_true, if_true, if_false, firstMatch,
      controllerPriority, List.find?]
    cases h1 : strings.Contains r.Name "provisioner" <;> simp [ControllerField.set]
    cases h2 : strings.Contains r.Name "resizer" <;> simp [ControllerField.set]
    cases h3 : strings.Contains r.Name "snapshotter" <;> simp [ControllerField.set]
    cases h4 : strings.Contains r.Name "attacher" <;> simp [ControllerField.set]
    cases h5 : strings.Contains r.Name "plugin" <;> simp [ControllerField.set]
    cases h6 : strings.Contains r.Name "omap-generator" <;> simp [ControllerField.set]
    cases h7 : strings.Contains r.Name "liveness" <;> simp [ControllerField.set]
    cases h8 : strings.Contains r.Name "addons" <;> simp [ControllerField.set]

/-- C10. For every allocation table, `createDriverControllerPluginResources` is the
reference fold over the rows in order from the empty resource set, in which a row
with empty requirements or without a matching substring is dropped and any other
row sets the field of the first substring its name contains, in the priority order
provisioner, resizer, snapshotter, attacher, plugin, omap-generator, liveness,
addons, to the row's limits and requests.  Setting a field changes that field only,
and the fields read by `ControllerField.get` are all the fields of the resource set. -/
theorem createDriverControllerPluginResources_eq_reference :
    (∀ (getComputeResource : String → List ContainerResource) (key : String),
      createDriverControllerPluginResources getComputeResource key =
        referenceControllerFold (getComputeResource key)) ∧
    controllerPriority.map (fun p => p.1) =
      ["provisioner", "resizer", "snapshotter", "attacher", "plugin", "omap-generator",
       "liveness", "addons"] ∧
    (∀ (f g : ControllerField) (acc : ControllerPluginResourcesSpec)
        (v : ResourceRequirements),
      g.get (f.set acc v) = if g = f then some v else g.get acc) ∧
    (∀ a b : ControllerPluginResourcesSpec, (∀ f : ControllerField, f.get a = f.get b) → a = b) ∧
    (∀ (r : ContainerResource), (limitsAndRequests r).Limits = r.Resource.Limits ∧
      (limitsAndRequests r).Requests = r.Resource.Requests) := by
  refine ⟨?_, rfl, ?_, ?_, fun r => ⟨rfl, rfl⟩⟩
  · intro getComputeResource key
    unfold createDriverControllerPluginResources referenceControllerFold
    have hbody : controllerPluginLoopBody = referenceControllerRow := by
      funext acc r
      exact controllerPluginLoopBody_eq_reference acc r
    simp only [hbody]
  · intro f g acc v
    cases f <;> cases g <;> simp [ControllerField.get, ControllerField.set]
  · intro a b h
    obtain ⟨a1, a2, a3, a4, a5, a6, a7, a8, a9⟩ := a
    obtain ⟨b1, b2, b3, b4, b5, b6, b7, b8, b9⟩ := b
    have h1 := h .Attacher
    have h2 := h .Snapshotter
    have h3 := h .Resizer
    have h4 := h .Provisioner
    have h5 := h .OMapGenerator
    have h6 := h .Liveness
    have h7 := h .Addons
    have h8 := h .LogRotator
    have h9 := h .Plugin
    simp only [ControllerField.get] at h1 h2 h3 h4 h5 h6 h7 h8 h9
    simp [h1, h2, h3, h4, h5, h6, h7, h8, h9]

/-- The node-plugin loop body of the source is the row step of the reference fold. -/
theorem nodePluginLoopBody_eq_reference (acc : NodePluginResourcesSpec)
    (r : ContainerResource) :
    nodePluginLoopBody acc r = referenceNodeRow acc r := by
  unfold nodePluginLoopBody referenceNodeRow
  by_cases hempty : r.Resource = emptyResourceRequirements
  · simp [hempty]
  · simp only [hempty, ne_eq, not_false_eq_true, if_true, if_false, firstMatch,
      nodePriority, List.find?]
    cases h1 : strings.Contains r.Name "registrar" <;> simp [NodeField.set]
    cases h2 : strings.Contains r.Name "plugin" <;> simp [NodeField.set]
    cases h3 : strings.Contains r.Name "liveness" <;> simp [NodeField.set]
    cases h4 : strings.Contains r.Name "addons" <;> simp [NodeField.set]

/-- C11, as stated, fails: a row with non-empty requirements named
"csi-provisioner-resizer" contains "resizer", yet the table holding only that row
populates the Provisioner field and leaves Resizer unset. -/
theorem createDriverControllerPluginResources_resizer_counterexample :
    strings.Contains "csi-provisioner-resizer" "resizer" = true ∧
    sampleRequirements ≠ emptyResourceRequirements ∧
    (createDriverControllerPluginResources
      (fun _ => [⟨"csi-provisioner-resizer", sampleRequirements⟩]) "key").Resizer = none ∧
    (createDriverControllerPluginResources
      (fun _ => [⟨"csi-provisioner-resizer", sampleRequirements⟩]) "key").Provisioner =
        some sampleRequirements := by
  decide

/-- C11, amended. For every row with non-empty requirements whose name contains
"resizer" and does not contain "provisioner", the table holding only that row
populates only the Resizer field, with the row's limits and requests: Plugin,
Attacher and every other field stay unset, whatever other substrings of the
dispatch list the name contains. -/
theorem createDriverControllerPluginResources_resizer_only
    (getComputeResource : String → List ContainerResource) (key : String)
    (r : ContainerResource)
    (htable : getComputeResource key = [r])
    (hnonempty : r.Resource ≠ emptyResourceRequirements)
    (hresizer : strings.Contains r.Name "resizer" = true)
    (hprov : strings.Contains r.Name "provisioner" = false) :
    createDriverControllerPluginResources getComputeResource key =
      { emptyControllerPluginResources with Resizer := some (limitsAndRequests r) } ∧
    (createDriverControllerPluginResources getComputeResource key).Resizer =
      some (limitsAndRequests r) ∧
    (createDriverControllerPluginResources getComputeResource key).Plugin = none ∧
    (createDriverControllerPluginResources getComputeResource key).Attacher = none ∧
    (∀ f : ControllerField, f ≠ .Resizer →
      f.get (createDriverControllerPluginResources getComputeResource key) = none) := by
  have h : createDriverControllerPluginResources getComputeResource key =
      { emptyControllerPluginResources with Resizer := some (limitsAndRequests r) } := by
    unfold createDriverControllerPluginResources
    simp [htable, controllerPluginLoopBody, hnonempty, hresizer, hprov]
  rw [h]
  refine ⟨rfl, rfl, rfl, rfl, ?_⟩
  intro f hf
  cases f <;> first | rfl | exact absurd rfl hf

/-- C11 amended, at a row whose name also contains "plugin" and "attacher". -/
theorem createDriverControllerPluginResources_resizer_only_witness :
    createDriverControllerPluginResources
        (fun _ => [⟨"csi-resizer-attacher-plugin", sampleRequirements⟩]) "key" =
      { emptyControllerPluginResources with
        Resizer := some (limitsAndRequests ⟨"csi-resizer-attacher-plugin", sampleRequirements⟩) } ∧
    (createDriverControllerPluginResources
        (fun _ => [⟨"csi-resizer-attacher-plugin", sampleRequirements⟩]) "key").Resizer =
      some (limitsAndRequests ⟨"csi-resizer-attacher-plugin", sampleRequirements⟩) ∧
    (createDriverControllerPluginResources
        (fun _ => [⟨"csi-resizer-attacher-plugin", sampleRequirements⟩]) "key").Plugin = none ∧
    (createDriverControllerPluginResources
        (fun _ => [⟨"csi-resizer-attacher-plugin", sampleRequirements⟩]) "key").Attacher = none ∧
    (∀ f : ControllerField, f ≠ .Resizer →
      f.get (createDriverControllerPluginResources
        (fun _ => [⟨"csi-resizer-attacher-plugin", sampleRequirements⟩]) "key") = none) :=
  createDriverControllerPluginResources_resizer_only
    (fun _ => [⟨"csi-resizer-attacher-plugin", sampleRequirements⟩]) "key"
    ⟨"csi-resizer-attacher-plugin", sampleRequirements⟩ rfl (by decide) (by decide) (by decide)

/-- C19. For every allocation table, `createDriverNodePluginResouces` is the fold over
the rows in order, from the empty resource set, in which a row with empty
requirements or without a matching substring is dropped and any other row sets
exactly one field, the one of the first substring its name contains in the priority
order registrar, plugin, liveness, addons, to the row's limits and requests.  In
particular a row with non-empty requirements whose name contains "registrar"
populates only the Registrar field, also when the name contains "plugin". -/
theorem createDriverNodePluginResouces_eq_reference :
    (∀ (getComputeResource : String → List ContainerResource) (key : String),
      createDriverNodePluginResouces getComputeResource key =
        referenceNodeFold (getComputeResource key)) ∧
    nodePriority.map (fun p => p.1) = ["registrar", "plugin", "liveness", "addons"] ∧
    (∀ (f g : NodeField) (acc : NodePluginResourcesSpec) (v : ResourceRequirements),
      g.get (f.set acc v) = if g = f then some v else g.get acc) ∧
    (∀ a b : NodePluginResourcesSpec, (∀ f : NodeField, f.get a = f.get b) → a = b) ∧
    (∀ (getComputeResource : String → List ContainerResource) (key : String)
        (r : ContainerResource),
      getComputeResource key = [r] → r.Resource ≠ emptyResourceRequirements →
      strings.Contains r.Name "registrar" = true → strings.Contains r.Name "plugin" = true →
      createDriverNodePluginResouces getComputeResource key =
        { emptyNodePluginResources with Registrar := some (limitsAndRequests r) }) ∧
    createDriverNodePluginResouces
        (fun _ => [⟨"csi-rbdplugin-registrar", sampleRequirements⟩]) "key" =
      { emptyNodePluginResources with Registrar := some sampleRequirements } := by
  refine ⟨?_, rfl, ?_, ?_, ?_, by decide⟩
  · intro getComputeResource key
    unfold createDriverNodePluginResouces referenceNodeFold
    have hbody : nodePluginLoopBody = referenceNodeRow := by
      funext acc r
      exact nodePluginLoopBody_eq_reference acc r
    simp only [hbody]
  · intro f g acc v
    cases f <;> cases g <;> simp [NodeField.get, NodeField.set]
  · intro a b h
    obtain ⟨a1, a2, a3, a4, a5⟩ := a
    obtain ⟨b1, b2, b3, b4, b5⟩ := b
    have h1 := h .Registrar
    have h2 := h .Liveness
    have h3 := h .Addons
    have h4 := h .LogRotator
    have h5 := h .Plugin
    simp only [NodeField.get] at h1 h2 h3 h4 h5
    simp [h1, h2, h3, h4, h5]
  · intro getComputeResource key r htable hnonempty hreg _
    unfold createDriverNodePluginResouces
    simp [htable, nodePluginLoopBody, hnonempty, hreg]

/-! ## Theorems: the desired driver specs -/

/-- One step of splitting at commas. -/
theorem splitChars_comma_cons (c : Char) (rest cur : List Char) :
    strings.splitChars [','] (c :: rest) 0 cur =
      if c = ',' then cur.reverse :: strings.splitChars [','] rest 0 []
      else strings.splitChars [','] rest 0 (c :: cur) := by
  by_cases h : c = ','
  · simp [strings.splitChars, strings.hasPrefixChars, h]
  · simp [strings.splitChars, strings.hasPrefixChars, h]

/-- Splitting at commas yields at least one piece. -/
theorem splitChars_comma_ne_nil (s cur : List Char) :
    strings.splitChars [','] s 0 cur ≠ [] := by
  induction s generalizing cur with
  | nil => simp [strings.splitChars]
  | cons c rest ih =>
    rw [splitChars_comma_cons]
    split
    · simp
    · exact ih _

/-- Joining the pieces of a split at commas gives back the characters split. -/
theorem join_splitChars_comma (s cur : List Char) :
    strings.Join ((strings.splitChars [','] s 0 cur).map String.mk) "," =
      String.mk (cur.reverse ++ s) := by
  induction s generalizing cur with
  | nil => simp [strings.splitChars, strings.Join]
  | cons c rest ih =>
    rw [splitChars_comma_cons]
    split
    · rename_i hc
      have hne := splitChars_comma_ne_nil rest []
      have hrest := ih []
      cases hsplit : strings.splitChars [','] rest 0 [] with
      | nil => exact absurd hsplit hne
      | cons b l =>
        rw [hsplit] at hrest
        simp only [List.map_cons, strings.Join] at hrest ⊢
        rw [hrest, hc]
        apply String.ext
        simp
    · rw [ih (c :: cur)]
      simp

/-- A split at commas has one more piece than there are commas. -/
theorem length_splitChars_comma (s cur : List Char) :
    (strings.splitChars [','] s 0 cur).length = s.count ',' + 1 := by
  induction s generalizing cur with
  | nil => simp [strings.splitChars]
  | cons c rest ih =>
    rw [splitChars_comma_cons]
    by_cases hc : c = ','
    · simp [hc, ih]
    · have hc' : ¬ (c == ',') = true := by simpa using hc
      simp [hc, ih, List.count_cons, hc']

/-- `strings.Join(strings.Split(s, ","), ",")` is `s`. -/
theorem join_split_comma (s : String) : strings.Join (strings.Split s ",") "," = s := by
  unfold strings.Split
  rw [if_neg (by decide)]
  have := join_splitChars_comma s.data []
  simpa using this

/-- `strings.Split(s, ",")` has one more element than `s` has commas. -/
theorem length_split_comma (s : String) :
    (strings.Split s ",").length = countCommas s + 1 := by
  unfold strings.Split countCommas
  rw [if_neg (by decide)]
  simpa using length_splitChars_comma s.data []

/-- A generated spec carries both plugin specs, and no topology on its node plugin. -/
theorem generateDriverSpec_ok_shape {σ : Type} (pkg : CSIPackage σ) (CSIParam : Param)
    (s s1 : σ) (clusterName : String) (spec : DriverSpec)
    (hgen : generateDriverSpec pkg CSIParam s clusterName = (s1, .ok spec)) :
    ∃ (controllerPlugin : ControllerPluginSpec) (nodePlugin : NodePluginSpec),
      spec.ControllerPlugin = some controllerPlugin ∧ spec.NodePlugin = some nodePlugin ∧
      nodePlugin.Topology = none := by
  unfold generateDriverSpec at hgen
  rcases hc : pkg.createImageSetConfigmap s with ⟨s', e | name⟩
  · simp [hc] at hgen
  · simp only [hc, Prod.mk.injEq, Except.ok.injEq] at hgen
    obtain ⟨_, hspec⟩ := hgen
    subst hspec
    exact ⟨_, _, rfl, rfl, rfl⟩

/-- The node plugin of the object a variant builds is the generated node plugin after
the shared assignments. -/
theorem desiredDriver_nodePlugin {σ : Type} (pkg : CSIPackage σ) (CSIParam : Param)
    (OperatorNamespace : String) (spec : DriverSpec) (variant : DriverVariant)
    (controllerPlugin : ControllerPluginSpec) (nodePlugin : NodePluginSpec)
    (hcp : spec.ControllerPlugin = some controllerPlugin)
    (hnp : spec.NodePlugin = some nodePlugin) :
    ∃ (driver : Driver) (key : String),
      desiredDriver pkg CSIParam OperatorNamespace spec variant = some driver ∧
      driver.Spec.NodePlugin = some (nodePluginAssignments pkg CSIParam key nodePlugin) := by
  cases variant
  · simp only [desiredDriver, desiredRBDDriver, hcp, hnp]
    exact ⟨_, pkg.rbdProvisionerResource, rfl, rfl⟩
  · simp only [desiredDriver, desiredCephFSDriver, hcp, hnp]
    exact ⟨_, pkg.cephFSProvisionerResource, rfl, rfl⟩
  · simp only [desiredDriver, desiredNFSDriver, hcp, hnp]
    exact ⟨_, pkg.nfsProvisionerResource, rfl, rfl⟩

/-- The topology after the shared node-plugin assignments. -/
theorem nodePluginAssignments_topology {σ : Type} (pkg : CSIPackage σ) (CSIParam : Param)
    (key : String) (nodePlugin : NodePluginSpec) :
    (nodePluginAssignments pkg CSIParam key nodePlugin).Topology =
      if CSIParam.CSIDomainLabels = "" then nodePlugin.Topology
      else some { DomainLabels := strings.Split CSIParam.CSIDomainLabels "," } := by
  unfold nodePluginAssignments
  by_cases hl : CSIParam.CSIDomainLabels = "" <;>
    by_cases hs : CSIParam.RBDPluginUpdateStrategy = "OnDelete" <;> simp [hl, hs]

/-- The update strategy after the shared node-plugin assignments. -/
theorem nodePluginAssignments_strategy {σ : Type} (pkg : CSIPackage σ) (CSIParam : Param)
    (key : String) (nodePlugin : NodePluginSpec) :
    (nodePluginAssignments pkg CSIParam key nodePlugin).UpdateStrategy =
      some { Type_ := if CSIParam.RBDPluginUpdateStrategy = "OnDelete" then .OnDelete
                      else .RollingUpdate } := by
  unfold nodePluginAssignments
  by_cases hl : CSIParam.CSIDomainLabels = "" <;>
    by_cases hs : CSIParam.RBDPluginUpdateStrategy = "OnDelete" <;> simp [hl, hs]

/-- A variant's method, once the spec is generated and the object built, issues the
calls of the upsert of that object and leaves the upsert's store. -/
theorem createOrUpdateVariant_calls {σ : Type} (r : ReconcileCSI σ) (pkg : CSIPackage σ)
    (CSIParam : Param) (s s1 : σ) (clusterName : String) (spec : DriverSpec)
    (variant : DriverVariant) (driver : Driver)
    (hgen : generateDriverSpec pkg CSIParam s clusterName = (s1, .ok spec))
    (hdriver : desiredDriver pkg CSIParam r.OperatorNamespace spec variant = some driver) :
    ∃ out : Outcome σ,
      createOrUpdateVariant r pkg CSIParam s clusterName variant = .returned out ∧
      out.calls = (createOrUpdateDriverResource r pkg.opConfigCRName s1 driver).calls ∧
      out.store = (createOrUpdateDriverResource r pkg.opConfigCRName s1 driver).store := by
  have frame : ∀ (desired : String → DriverSpec → Option Driver) (format : String),
      desired r.OperatorNamespace spec = some driver →
      ∃ out : Outcome σ,
        createOrUpdateVariantDriverResource r pkg CSIParam desired format s clusterName =
          .returned out ∧
        out.calls = (createOrUpdateDriverResource r pkg.opConfigCRName s1 driver).calls ∧
        out.store = (createOrUpdateDriverResource r pkg.opConfigCRName s1 driver).store := by
    intro desired format hd
    unfold createOrUpdateVariantDriverResource
    simp only [hgen, hd]
    cases (createOrUpdateDriverResource r pkg.opConfigCRName s1 driver).err with
    | none => exact ⟨_, rfl, rfl, rfl⟩
    | some e => exact ⟨_, rfl, rfl, rfl⟩
  cases variant
  · exact frame _ _ hdriver
  · exact frame _ _ hdriver
  · exact frame _ _ hdriver

/-- C12. For each of the three driver variants, once the spec is generated, the
method builds a desired object and upserts it, and the node-plugin topology of that
object is unset when `CSIParam.CSIDomainLabels` is empty and otherwise set with
`DomainLabels` the split of the string at every comma: the labels joined with ","
give back the string and there is one more label than the string has commas. -/
theorem desiredDriver_topology {σ : Type} (r : ReconcileCSI σ) (pkg : CSIPackage σ)
    (CSIParam : Param) (s s1 : σ) (clusterName : String) (spec : DriverSpec)
    (variant : DriverVariant)
    (hgen : generateDriverSpec pkg CSIParam s clusterName = (s1, .ok spec)) :
    ∃ (driver : Driver) (nodePlugin : NodePluginSpec) (out : Outcome σ),
      desiredDriver pkg CSIParam r.OperatorNamespace spec variant = some driver ∧
      createOrUpdateVariant r pkg CSIParam s clusterName variant = .returned out ∧
      out.calls = (createOrUpdateDriverResource r pkg.opConfigCRName s1 driver).calls ∧
      driver.Spec.NodePlugin = some nodePlugin ∧
      (CSIParam.CSIDomainLabels = "" → nodePlugin.Topology = none) ∧
      (CSIParam.CSIDomainLabels ≠ "" →
        nodePlugin.Topology =
          some { DomainLabels := strings.Split CSIParam.CSIDomainLabels "," } ∧
        strings.Join (strings.Split CSIParam.CSIDomainLabels ",") "," =
          CSIParam.CSIDomainLabels ∧
        (strings.Split CSIParam.CSIDomainLabels ",").length =
          countCommas CSIParam.CSIDomainLabels + 1) := by
  obtain ⟨cp, np, hcp, hnp, htopo⟩ := generateDriverSpec_ok_shape pkg CSIParam s s1 clusterName
    spec hgen
  obtain ⟨driver, key, hdriver, hnode⟩ := desiredDriver_nodePlugin pkg CSIParam
    r.OperatorNamespace spec variant cp np hcp hnp
  obtain ⟨out, hout, hcalls, _⟩ := createOrUpdateVariant_calls r pkg CSIParam s s1 clusterName
    spec variant driver hgen hdriver
  refine ⟨driver, _, out, hdriver, hout, hcalls, hnode, ?_, ?_⟩
  · intro hempty
    rw [nodePluginAssignments_topology, if_pos hempty, htopo]
  · intro hne
    rw [nodePluginAssignments_topology, if_neg hne]
    exact ⟨rfl, join_split_comma _, length_split_comma _⟩

/-- C12 at a concrete configuration: the CephFS driver with domain labels "zone,rack". -/
theorem desiredDriver_topology_witness :
    ∃ (driver : Driver) (nodePlugin : NodePluginSpec) (out : Outcome Cluster),
      desiredDriver samplePackage sampleParam (memReconciler "rook-ceph").OperatorNamespace
        sampleGeneratedSpec
        .CephFS = some driver ∧
      createOrUpdateVariant (memReconciler "rook-ceph") samplePackage sampleParam ⟨[], []⟩
        "my-cluster" .CephFS = .returned out ∧
      out.calls = (createOrUpdateDriverResource (memReconciler "rook-ceph")
        samplePackage.opConfigCRName ⟨[], []⟩ driver).calls ∧
      driver.Spec.NodePlugin = some nodePlugin ∧
      (sampleParam.CSIDomainLabels = "" → nodePlugin.Topology = none) ∧
      (sampleParam.CSIDomainLabels ≠ "" →
        nodePlugin.Topology =
          some { DomainLabels := strings.Split sampleParam.CSIDomainLabels "," } ∧
        strings.Join (strings.Split sampleParam.CSIDomainLabels ",") "," =
          sampleParam.CSIDomainLabels ∧
        (strings.Split sampleParam.CSIDomainLabels ",").length =
          countCommas sampleParam.CSIDomainLabels + 1) :=
  desiredDriver_topology (memReconciler "rook-ceph") samplePackage sampleParam ⟨[], []⟩
    ⟨[], []⟩ "my-cluster" _ .CephFS rfl

/-- C13. For each of the three driver variants, once the spec is generated, the
node-plugin update strategy of the desired object is OnDelete exactly when
`CSIParam.RBDPluginUpdateStrategy` equals "OnDelete"; for every other value of
that flag, the empty string included, it is RollingUpdate.  The one flag
`RBDPluginUpdateStrategy` decides the strategy of all three variants. -/
theorem desiredDriver_updateStrategy {σ : Type} (r : ReconcileCSI σ) (pkg : CSIPackage σ)
    (CSIParam : Param) (s s1 : σ) (clusterName : String) (spec : DriverSpec)
    (variant : DriverVariant)
    (hgen : generateDriverSpec pkg CSIParam s clusterName = (s1, .ok spec)) :
    ∃ (driver : Driver) (nodePlugin : NodePluginSpec) (out : Outcome σ)
        (strategy : DaemonSetUpdateStrategy),
      desiredDriver pkg CSIParam r.OperatorNamespace spec variant = some driver ∧
      createOrUpdateVariant r pkg CSIParam s clusterName variant = .returned out ∧
      out.calls = (createOrUpdateDriverResource r pkg.opConfigCRName s1 driver).calls ∧
      driver.Spec.NodePlugin = some nodePlugin ∧
      nodePlugin.UpdateStrategy = some strategy ∧
      (strategy.Type_ = .OnDelete ↔ CSIParam.RBDPluginUpdateStrategy = "OnDelete") ∧
      (CSIParam.RBDPluginUpdateStrategy ≠ "OnDelete" → strategy.Type_ = .RollingUpdate) ∧
      (CSIParam.RBDPluginUpdateStrategy = "" → strategy.Type_ = .RollingUpdate) := by
  obtain ⟨cp, np, hcp, hnp, _⟩ := generateDriverSpec_ok_shape pkg CSIParam s s1 clusterName
    spec hgen
  obtain ⟨driver, key, hdriver, hnode⟩ := desiredDriver_nodePlugin pkg CSIParam
    r.OperatorNamespace spec variant cp np hcp hnp
  obtain ⟨out, hout, hcalls, _⟩ := createOrUpdateVariant_calls r pkg CSIParam s s1 clusterName
    spec variant driver hgen hdriver
  refine ⟨driver, _, out, _, hdriver, hout, hcalls, hnode,
    nodePluginAssignments_strategy pkg CSIParam key np, ?_, ?_, ?_⟩
  · by_cases h : CSIParam.RBDPluginUpdateStrategy = "OnDelete" <;> simp [h]
  · intro h
    simp [h]
  · intro h
    have hne : CSIParam.RBDPluginUpdateStrategy ≠ "OnDelete" := by
      rw [h]
      decide
    simp [hne]

/-- C13 at a concrete configuration: the NFS driver under the flag "OnDelete". -/
theorem desiredDriver_updateStrategy_witness :
    ∃ (driver : Driver) (nodePlugin : NodePluginSpec) (out : Outcome Cluster)
        (strategy : DaemonSetUpdateStrategy),
      desiredDriver samplePackage sampleParam (memReconciler "rook-ceph").OperatorNamespace
        sampleGeneratedSpec
        .NFS = some driver ∧
      createOrUpdateVariant (memReconciler "rook-ceph") samplePackage sampleParam ⟨[], []⟩
        "my-cluster" .NFS = .returned out ∧
      out.calls = (createOrUpdateDriverResource (memReconciler "rook-ceph")
        samplePackage.opConfigCRName ⟨[], []⟩ driver).calls ∧
      driver.Spec.NodePlugin = some nodePlugin ∧
      nodePlugin.UpdateStrategy = some strategy ∧
      (strategy.Type_ = .OnDelete ↔ sampleParam.RBDPluginUpdateStrategy = "OnDelete") ∧
      (sampleParam.RBDPluginUpdateStrategy ≠ "OnDelete" → strategy.Type_ = .RollingUpdate) ∧
      (sampleParam.RBDPluginUpdateStrategy = "" → strategy.Type_ = .RollingUpdate) :=
  desiredDriver_updateStrategy (memReconciler "rook-ceph") samplePackage sampleParam ⟨[], []⟩
    ⟨[], []⟩ "my-cluster" _ .NFS rfl

/-! ## Theorems: error context -/

/-- C18. The error `createOrUpdateDriverResource` returns after a fetch failure that
is not not-found is rendered with `opConfigCRName`, not with the name of the driver
resource: for the driver "rook-ceph.rbd.csi.ceph.com" the message names
"ceph-csi-operator-config" only.  The errors of the create and of the update path
are rendered with the driver resource's name. -/
theorem createOrUpdateDriverResource_get_error_context :
    (createOrUpdateDriverResource
        { client := failingClient serverError serverError serverError,
          CSIDrivers := memCSIDrivers, OperatorNamespace := "rook-ceph" }
        "ceph-csi-operator-config" ⟨[], []⟩ sampleDesired).err =
      some (.wrapf serverError "failed to get CSI-operator  driver CR %q"
        ["ceph-csi-operator-config"]) ∧
    sampleDesired.ObjectMeta.Name = "rook-ceph.rbd.csi.ceph.com" ∧
    sampleDesired.ObjectMeta.Name ∉
      (GoError.wrapf serverError "failed to get CSI-operator  driver CR %q"
        ["ceph-csi-operator-config"]).args ∧
    (createOrUpdateDriverResource
        { client := failingClient notFoundError serverError serverError,
          CSIDrivers := memCSIDrivers, OperatorNamespace := "rook-ceph" }
        "ceph-csi-operator-config" ⟨[], []⟩ sampleDesired).err =
      some (.wrapf serverError "failed to create CSI-operator driver CR %q"
        [sampleDesired.ObjectMeta.Name]) ∧
    (createOrUpdateDriverResource
        { client := failingUpdateClient serverError,
          CSIDrivers := memCSIDrivers, OperatorNamespace := "rook-ceph" }
        "ceph-csi-operator-config" ⟨[sampleStored], []⟩ sampleDesired).err =
      some (.wrapf serverError "failed to update CSI-operator driver CR %q"
        [sampleDesired.ObjectMeta.Name]) := by
  refine ⟨rfl, rfl, ?_, rfl, rfl⟩
  decide

/-! ## Theorems: credential rotation -/

/-- C14, as stated, fails: in a pass with rotation disabled that starts with the
status `Known` at generation 1 and the target generation 1, while the store holds
a stale keyring, no rotate call is made and the status is unchanged, yet the
default path writes the key answered by get-or-create over the stored keyring. -/
theorem reconcileCredentials_gate_counterexample :
    (⟨false, 1⟩ : RotationPolicy).targetGeneration ≤ 1 ∧
    (reconcileCredentials cephAuthCommands ⟨false, 1⟩ "18.2.0-0" sampleAuth
      ⟨.Known 1 "18.2.0-0", staleCredentialStore⟩).commands = [.getOrCreateKey] ∧
    (reconcileCredentials cephAuthCommands ⟨false, 1⟩ "18.2.0-0" sampleAuth
      ⟨.Known 1 "18.2.0-0", staleCredentialStore⟩).state.status = .Known 1 "18.2.0-0" ∧
    staleCredentialStore.keyring = some "stale-key" ∧
    (reconcileCredentials cephAuthCommands ⟨false, 1⟩ "18.2.0-0" sampleAuth
      ⟨.Known 1 "18.2.0-0", staleCredentialStore⟩).state.store.keyring =
        some "AQCvzWBeIV9lFRAAninzm+8XFxbSfTiPwoX50g==" ∧
    (reconcileCredentials cephAuthCommands ⟨false, 1⟩ "18.2.0-0" sampleAuth
      ⟨.Known 1 "18.2.0-0", staleCredentialStore⟩).state.store.keyring ≠
        staleCredentialStore.keyring := by
  decide

/-- C14, amended. Rotation gate: in every reconcile pass that starts with the status
`Known` at generation `g` and a configured target generation not above `g`, the
rotate primitive is not invoked and the status (generation and producing version)
is the same after the pass.  With rotation enabled the pass issues no command and
the stored keyring, with the whole store entry, is the same after the pass.  With
rotation disabled the pass takes the default path: the keyring after the pass is
the key get-or-create answered, the other fields of the store entry are untouched,
and after a failed get-or-create the store entry is unchanged. -/
theorem reconcileCredentials_no_rotation {σ : Type} (cmds : KeyCommands σ)
    (policy : RotationPolicy) (observedVersion : String) (s : σ) (store : CredentialStore)
    (g : Nat) (v : String)
    (hgate : policy.targetGeneration ≤ g) :
    KeyCommand.rotate ∉
      (reconcileCredentials cmds policy observedVersion s ⟨.Known g v, store⟩).commands ∧
    rotateCalls
      (reconcileCredentials cmds policy observedVersion s ⟨.Known g v, store⟩).commands = 0 ∧
    (reconcileCredentials cmds policy observedVersion s ⟨.Known g v, store⟩).state.status =
      .Known g v ∧
    (policy.enabled = true →
      (reconcileCredentials cmds policy observedVersion s ⟨.Known g v, store⟩).commands = [] ∧
      (reconcileCredentials cmds policy observedVersion s
        ⟨.Known g v, store⟩).state.store.keyring = store.keyring ∧
      (reconcileCredentials cmds policy observedVersion s ⟨.Known g v, store⟩).state.store =
        store) ∧
    (policy.enabled = false →
      (reconcileCredentials cmds policy observedVersion s ⟨.Known g v, store⟩).commands =
        [.getOrCreateKey] ∧
      (reconcileCredentials cmds policy observedVersion s
        ⟨.Known g v, store⟩).state.store.otherFields = store.otherFields ∧
      (∀ s' key, cmds.getOrCreateKey s = (s', .ok key) →
        (reconcileCredentials cmds policy observedVersion s
          ⟨.Known g v, store⟩).state.store.keyring = some key) ∧
      (∀ s' e, cmds.getOrCreateKey s = (s', .error e) →
        (reconcileCredentials cmds policy observedVersion s ⟨.Known g v, store⟩).state.store =
          store)) := by
  unfold reconcileCredentials
  by_cases hen : policy.enabled = false
  · rw [if_pos hen]
    unfold ensureKey
    rcases hc : cmds.getOrCreateKey s with ⟨s', e | key⟩
    · simp [rotateCalls, hen]
    · simp [rotateCalls, hen]
  · rw [if_neg hen]
    have hng : ¬ policy.targetGeneration > gateGeneration (.Known g v) := by
      simp [gateGeneration, hgate]
    simp [hng, unchangedPass, rotateCalls, hen]

/-- C14 amended, at the pass of the test "brownfield reconcile - no further rotation
happens": rotation enabled, generation 2, target 2. -/
theorem reconcileCredentials_no_rotation_witness :
    KeyCommand.rotate ∉
      (reconcileCredentials cephAuthCommands ⟨true, 2⟩ "20.2.0-0" sampleAuth
        ⟨.Known 2 "20.2.0-0", sampleCredentialStore⟩).commands ∧
    rotateCalls
      (reconcileCredentials cephAuthCommands ⟨true, 2⟩ "20.2.0-0" sampleAuth
        ⟨.Known 2 "20.2.0-0", sampleCredentialStore⟩).commands = 0 ∧
    (reconcileCredentials cephAuthCommands ⟨true, 2⟩ "20.2.0-0" sampleAuth
      ⟨.Known 2 "20.2.0-0", sampleCredentialStore⟩).state.status = .Known 2 "20.2.0-0" ∧
    ((⟨true, 2⟩ : RotationPolicy).enabled = true →
      (reconcileCredentials cephAuthCommands ⟨true, 2⟩ "20.2.0-0" sampleAuth
        ⟨.Known 2 "20.2.0-0", sampleCredentialStore⟩).commands = [] ∧
      (reconcileCredentials cephAuthCommands ⟨true, 2⟩ "20.2.0-0" sampleAuth
        ⟨.Known 2 "20.2.0-0", sampleCredentialStore⟩).state.store.keyring =
          sampleCredentialStore.keyring ∧
      (reconcileCredentials cephAuthCommands ⟨true, 2⟩ "20.2.0-0" sampleAuth
        ⟨.Known 2 "20.2.0-0", sampleCredentialStore⟩).state.store = sampleCredentialStore) ∧
    ((⟨true, 2⟩ : RotationPolicy).enabled = false →
      (reconcileCredentials cephAuthCommands ⟨true, 2⟩ "20.2.0-0" sampleAuth
        ⟨.Known 2 "20.2.0-0", sampleCredentialStore⟩).commands = [.getOrCreateKey] ∧
      (reconcileCredentials cephAuthCommands ⟨true, 2⟩ "20.2.0-0" sampleAuth
        ⟨.Known 2 "20.2.0-0", sampleCredentialStore⟩).state.store.otherFields =
          sampleCredentialStore.otherFields ∧
      (∀ s' key, cephAuthCommands.getOrCreateKey sampleAuth = (s', .ok key) →
        (reconcileCredentials cephAuthCommands ⟨true, 2⟩ "20.2.0-0" sampleAuth
          ⟨.Known 2 "20.2.0-0", sampleCredentialStore⟩).state.store.keyring = some key) ∧
      (∀ s' e, cephAuthCommands.getOrCreateKey sampleAuth = (s', .error e) →
        (reconcileCredentials cephAuthCommands ⟨true, 2⟩ "20.2.0-0" sampleAuth
          ⟨.Known 2 "20.2.0-0", sampleCredentialStore⟩).state.store =
            sampleCredentialStore)) :=
  reconcileCredentials_no_rotation cephAuthCommands ⟨true, 2⟩ "20.2.0-0" sampleAuth
    sampleCredentialStore 2 "20.2.0-0" (Nat.le_refl 2)

/-- C15. Rotation transition: in every reconcile pass with rotation enabled whose
target generation is greater than the current generation (that of a `Known` status,
or 0 for the cleared status), with a rotate call that succeeds, the rotate
primitive is invoked exactly once, the status becomes `Known` at the target
generation under the observed version, the stored keyring holds the key the rotate
call returned (the other fields of the store entry are untouched), and the
dependent workloads are signalled to restart. -/
theorem reconcileCredentials_rotation {σ : Type} (cmds : KeyCommands σ)
    (policy : RotationPolicy) (observedVersion : String) (s s' : σ) (st : CredentialState)
    (g : Nat) (v key : String)
    (henabled : policy.enabled = true)
    (hstatus : st.status = .Known g v ∨ (st.status = .Unknown ∧ g = 0))
    (hgate : policy.targetGeneration > g)
    (hrotate : cmds.rotateKey s = (s', .ok key)) :
    (reconcileCredentials cmds policy observedVersion s st).commands = [.rotate] ∧
    rotateCalls (reconcileCredentials cmds policy observedVersion s st).commands = 1 ∧
    (reconcileCredentials cmds policy observedVersion s st).state.status =
      .Known policy.targetGeneration observedVersion ∧
    (reconcileCredentials cmds policy observedVersion s st).state.store.keyring = some key ∧
    (reconcileCredentials cmds policy observedVersion s st).state.store.otherFields =
      st.store.otherFields ∧
    (reconcileCredentials cmds policy observedVersion s st).restartSignalled = true ∧
    (reconcileCredentials cmds policy observedVersion s st).err = none ∧
    (reconcileCredentials cmds policy observedVersion s st).cluster = s' := by
  have hpass : reconcileCredentials cmds policy observedVersion s st =
      rotate cmds policy.targetGeneration observedVersion s st := by
    unfold reconcileCredentials
    rcases hstatus with h | ⟨h, h0⟩
    · simp [henabled, h, gateGeneration, hgate]
    · subst h0
      simp [henabled, h, gateGeneration, hgate]
  rw [hpass]
  unfold rotate
  simp [hrotate, rotateCalls]

/-- C15 at the pass of the tests that moves generation 2 to the target 3. -/
theorem reconcileCredentials_rotation_witness :
    (reconcileCredentials cephAuthCommands ⟨true, 3⟩ "20.2.0-0" sampleAuth
      ⟨.Known 2 "20.2.0-0", sampleCredentialStore⟩).commands = [.rotate] ∧
    rotateCalls (reconcileCredentials cephAuthCommands ⟨true, 3⟩ "20.2.0-0" sampleAuth
      ⟨.Known 2 "20.2.0-0", sampleCredentialStore⟩).commands = 1 ∧
    (reconcileCredentials cephAuthCommands ⟨true, 3⟩ "20.2.0-0" sampleAuth
      ⟨.Known 2 "20.2.0-0", sampleCredentialStore⟩).state.status = .Known 3 "20.2.0-0" ∧
    (reconcileCredentials cephAuthCommands ⟨true, 3⟩ "20.2.0-0" sampleAuth
      ⟨.Known 2 "20.2.0-0", sampleCredentialStore⟩).state.store.keyring = some "BBBB" ∧
    (reconcileCredentials cephAuthCommands ⟨true, 3⟩ "20.2.0-0" sampleAuth
      ⟨.Known 2 "20.2.0-0", sampleCredentialStore⟩).state.store.otherFields =
        sampleCredentialStore.otherFields ∧
    (reconcileCredentials cephAuthCommands ⟨true, 3⟩ "20.2.0-0" sampleAuth
      ⟨.Known 2 "20.2.0-0", sampleCredentialStore⟩).restartSignalled = true ∧
    (reconcileCredentials cephAuthCommands ⟨true, 3⟩ "20.2.0-0" sampleAuth
      ⟨.Known 2 "20.2.0-0", sampleCredentialStore⟩).err = none ∧
    (reconcileCredentials cephAuthCommands ⟨true, 3⟩ "20.2.0-0" sampleAuth
      ⟨.Known 2 "20.2.0-0", sampleCredentialStore⟩).cluster =
        { current := "BBBB", upcoming := ["CCCC"] } :=
  reconcileCredentials_rotation cephAuthCommands ⟨true, 3⟩ "20.2.0-0" sampleAuth
    { current := "BBBB", upcoming := ["CCCC"] } ⟨.Known 2 "20.2.0-0", sampleCredentialStore⟩
    2 "20.2.0-0" "BBBB" rfl (Or.inl rfl) (by decide) rfl

/-- C16, as stated, fails: a pass that starts with the cleared status `Unknown`
while key material exists, with rotation enabled and the target generation 2,
calls rotate and ends with the status `Known` at generation 2, as the test "rotate
key - brownfield unknown status becomes known" asserts. -/
theorem reconcileCredentials_unknown_counterexample :
    sampleCredentialStore.keyring ≠ none ∧
    (reconcileCredentials cephAuthCommands ⟨true, 2⟩ "20.2.0-0" sampleAuth
      ⟨.Unknown, sampleCredentialStore⟩).state.status = .Known 2 "20.2.0-0" ∧
    (reconcileCredentials cephAuthCommands ⟨true, 2⟩ "20.2.0-0" sampleAuth
      ⟨.Unknown, sampleCredentialStore⟩).state.status ≠ .Unknown ∧
    (reconcileCredentials cephAuthCommands ⟨true, 2⟩ "20.2.0-0" sampleAuth
      ⟨.Unknown, sampleCredentialStore⟩).commands = [.rotate] := by
  decide

/-- C16, amended. Brownfield rule: in every reconcile pass with rotation enabled and
no target generation configured (target generation 0) that starts with the cleared
status `Unknown`, the status stays `Unknown`, no command is issued (no rotate
call) and the store entry with its key material is as before: no generation is
derived from the existing key material. -/
theorem reconcileCredentials_unknown_retained {σ : Type} (cmds : KeyCommands σ)
    (policy : RotationPolicy) (observedVersion : String) (s : σ) (store : CredentialStore)
    (henabled : policy.enabled = true)
    (htarget : policy.targetGeneration = 0) :
    (reconcileCredentials cmds policy observedVersion s ⟨.Unknown, store⟩).state.status =
      .Unknown ∧
    (reconcileCredentials cmds policy observedVersion s ⟨.Unknown, store⟩).commands = [] ∧
    rotateCalls
      (reconcileCredentials cmds policy observedVersion s ⟨.Unknown, store⟩).commands = 0 ∧
    (reconcileCredentials cmds policy observedVersion s ⟨.Unknown, store⟩).state.store =
      store ∧
    (reconcileCredentials cmds policy observedVersion s ⟨.Unknown, store⟩).err = none := by
  unfold reconcileCredentials
  simp [henabled, htarget, gateGeneration, unchangedPass, rotateCalls]

/-- C16 amended, at the pass of the test "brownfield reconcile - retain unknown cephx
status". -/
theorem reconcileCredentials_unknown_retained_witness :
    (reconcileCredentials cephAuthCommands ⟨true, 0⟩ "20.2.0-0" sampleAuth
      ⟨.Unknown, sampleCredentialStore⟩).state.status = .Unknown ∧
    (reconcileCredentials cephAuthCommands ⟨true, 0⟩ "20.2.0-0" sampleAuth
      ⟨.Unknown, sampleCredentialStore⟩).commands = [] ∧
    rotateCalls (reconcileCredentials cephAuthCommands ⟨true, 0⟩ "20.2.0-0" sampleAuth
      ⟨.Unknown, sampleCredentialStore⟩).commands = 0 ∧
    (reconcileCredentials cephAuthCommands ⟨true, 0⟩ "20.2.0-0" sampleAuth
      ⟨.Unknown, sampleCredentialStore⟩).state.store = sampleCredentialStore ∧
    (reconcileCredentials cephAuthCommands ⟨true, 0⟩ "20.2.0-0" sampleAuth
      ⟨.Unknown, sampleCredentialStore⟩).err = none :=
  reconcileCredentials_unknown_retained cephAuthCommands ⟨true, 0⟩ "20.2.0-0" sampleAuth
    sampleCredentialStore rfl rfl

/-! ## Theorems: the dependents guard -/

/-- A list of characters starts with any of its prefixes. -/
theorem hasPrefixChars_append (k b : List Char) : strings.hasPrefixChars (k ++ b) k = true := by
  induction k with
  | nil => cases b <;> rfl
  | cons c k ih => simp [strings.hasPrefixChars, ih]

/-- A block occurs in what starts with it. -/
theorem containsChars_append_right (k b : List Char) :
    strings.containsChars (k ++ b) k = true := by
  cases hkb : k ++ b with
  | nil =>
    have hk : k = [] := (List.append_eq_nil.mp hkb).1
    subst hk
    rfl
  | cons c rest =>
    unfold strings.containsChars
    rw [← hkb, hasPrefixChars_append]
    rfl

/-- A block that occurs in a list occurs in every extension of the list to the left. -/
theorem containsChars_append_left (a b sub : List Char)
    (h : strings.containsChars b sub = true) : strings.containsChars (a ++ b) sub = true := by
  induction a with
  | nil => exact h
  | cons c a ih =>
    show strings.containsChars (c :: (a ++ b)) sub = true
    unfold strings.containsChars
    rw [ih]
    simp

/-- `strings.Contains(x + k + y, k)` holds. -/
theorem contains_middle (x k y : String) : strings.Contains (x ++ k ++ y) k = true := by
  unfold strings.Contains
  have : (x ++ k ++ y).data = x.data ++ (k.data ++ y.data) := by simp
  rw [this]
  exact containsChars_append_left _ _ _ (containsChars_append_right _ _)

/-- The rendered dependents name the kind and the name of every dependent. -/
theorem renderDependents_names (deps : DependentList) (d : Dependent) (hd : d ∈ deps) :
    strings.Contains (renderDependents deps) d.kind = true ∧
    strings.Contains (renderDependents deps) d.name = true := by
  induction deps with
  | nil => cases hd
  | cons d' ds ih =>
    rcases List.mem_cons.mp hd with h | h
    · subst h
      constructor
      · have := contains_middle "" d.kind (": " ++ d.name ++ "; " ++ renderDependents ds)
        simpa [renderDependents, String.append_assoc] using this
      · have := contains_middle (d.kind ++ ": ") d.name ("; " ++ renderDependents ds)
        simpa [renderDependents, String.append_assoc] using this
    · obtain ⟨h1, h2⟩ := ih h
      unfold strings.Contains at h1 h2 ⊢
      have hdata : (renderDependents (d' :: ds)).data =
          (d'.kind ++ ": " ++ d'.name ++ "; ").data ++ (renderDependents ds).data := by
        simp [renderDependents]
      rw [hdata]
      exact ⟨containsChars_append_left _ _ _ h1, containsChars_append_left _ _ _ h2⟩

/-- Passes that all find dependents leave the resource as it is and emit one event each. -/
theorem runDeletionPasses_blocked (finalizer : String) (retryAfter : Nat)
    (checks : List DependentList) (res : ManagedResource)
    (hall : ∀ deps ∈ checks, deps ≠ []) :
    (runDeletionPasses finalizer retryAfter (checks.map Except.ok) res).1 = res ∧
    (runDeletionPasses finalizer retryAfter (checks.map Except.ok) res).2.length =
      checks.length := by
  induction checks with
  | nil => exact ⟨rfl, rfl⟩
  | cons deps rest ih =>
    have hdeps : deps ≠ [] := hall deps (List.mem_cons_self _ _)
    obtain ⟨h1, h2⟩ := ih (fun d hd => hall d (List.mem_cons_of_mem _ hd))
    simp only [List.map_cons, runDeletionPasses, deletionPass, hdeps, ne_eq, not_false_eq_true,
      if_true]
    exact ⟨h1, by simp [h2, Nat.add_comm]⟩

/-- C17. Dependents guard: in every deletion-phase pass whose dependents check answers
a non-empty list, the resource is left as it is (not deleted, its finalizers
untouched), the pass returns no error and a non-zero result that asks for a retry,
and the one event emitted names the kind and the name of every dependent; passes
repeated while every check finds dependents leave the resource as it is, one event
per pass. -/
theorem deletionPass_blocked (finalizer : String) (retryAfter : Nat) (deps : DependentList)
    (res : ManagedResource) (hdeps : deps ≠ []) :
    (deletionPass finalizer retryAfter (.ok deps) res).resource = res ∧
    (deletionPass finalizer retryAfter (.ok deps) res).resource.deleted = res.deleted ∧
    (deletionPass finalizer retryAfter (.ok deps) res).resource.finalizers = res.finalizers ∧
    (deletionPass finalizer retryAfter (.ok deps) res).err = none ∧
    (deletionPass finalizer retryAfter (.ok deps) res).result.IsZero = false ∧
    (∃ ev : Event,
      (deletionPass finalizer retryAfter (.ok deps) res).events = [ev] ∧
      ∀ d ∈ deps, strings.Contains ev.message d.kind = true ∧
        strings.Contains ev.message d.name = true) ∧
    (∀ checks : List DependentList, (∀ c ∈ checks, c ≠ []) →
      (runDeletionPasses finalizer retryAfter (checks.map Except.ok) res).1 = res ∧
      (runDeletionPasses finalizer retryAfter (checks.map Except.ok) res).2.length =
        checks.length) := by
  have hpass : deletionPass finalizer retryAfter (.ok deps) res =
      { resource := res,
        events :=
          [{ identity := res.name, reason := "ReconcileFailed",
             message := "will not be deleted until all dependents are removed: " ++
               renderDependents deps }],
        result := { Requeue := true, RequeueAfter := retryAfter },
        err := none } := by
    simp [deletionPass, hdeps]
  rw [hpass]
  refine ⟨rfl, rfl, rfl, rfl, rfl, ⟨_, rfl, ?_⟩, ?_⟩
  · intro d hd
    obtain ⟨h1, h2⟩ := renderDependents_names deps d hd
    unfold strings.Contains at h1 h2 ⊢
    simp only [String.data_append]
    exact ⟨containsChars_append_left _ _ _ h1, containsChars_append_left _ _ _ h2⟩
  · intro checks hall
    exact runDeletionPasses_blocked finalizer retryAfter checks res hall

/-- C17 at the pass of the test "block on dependents": one dependent of kind
"TestDependent" named "fake-dependent". -/
theorem deletionPass_blocked_witness :
    (deletionPass "cephfilesystem.ceph.rook.io" 10 (.ok [⟨"TestDependent", "fake-dependent"⟩])
      sampleFilesystem).resource = sampleFilesystem ∧
    (deletionPass "cephfilesystem.ceph.rook.io" 10 (.ok [⟨"TestDependent", "fake-dependent"⟩])
      sampleFilesystem).resource.deleted = sampleFilesystem.deleted ∧
    (deletionPass "cephfilesystem.ceph.rook.io" 10 (.ok [⟨"TestDependent", "fake-dependent"⟩])
      sampleFilesystem).resource.finalizers = sampleFilesystem.finalizers ∧
    (deletionPass "cephfilesystem.ceph.rook.io" 10 (.ok [⟨"TestDependent", "fake-dependent"⟩])
      sampleFilesystem).err = none ∧
    (deletionPass "cephfilesystem.ceph.rook.io" 10 (.ok [⟨"TestDependent", "fake-dependent"⟩])
      sampleFilesystem).result.IsZero = false ∧
    (∃ ev : Event,
      (deletionPass "cephfilesystem.ceph.rook.io" 10
        (.ok [⟨"TestDependent", "fake-dependent"⟩]) sampleFilesystem).events = [ev] ∧
      ∀ d ∈ [(⟨"TestDependent", "fake-dependent"⟩ : Dependent)],
        strings.Contains ev.message d.kind = true ∧
        strings.Contains ev.message d.name = true) ∧
    (∀ checks : List DependentList, (∀ c ∈ checks, c ≠ []) →
      (runDeletionPasses "cephfilesystem.ceph.rook.io" 10 (checks.map Except.ok)
        sampleFilesystem).1 = sampleFilesystem ∧
      (runDeletionPasses "cephfilesystem.ceph.rook.io" 10 (checks.map Except.ok)
        sampleFilesystem).2.length = checks.length) :=
  deletionPass_blocked "cephfilesystem.ceph.rook.io" 10 [⟨"TestDependent", "fake-dependent"⟩]
    sampleFilesystem (by decide)

end Rook
